import Mathlib

/-!
Shallow embedding of the s3t CLI core (Go): the resource Provisioner
(`internal/s3tables/creator.go`), the pagination aggregator
(`internal/s3tables/lister.go`) and the interactive Navigator
(`internal/s3tables/navigator.go`), together with proofs of the spec's
claims about them.

The remote AWS S3 Tables API is modelled as a record of oracle functions
over an abstract state `σ` (the Go code consumes it through the
`S3TablesAPI` interface, so any implementation is admissible).  Every
embedded operation additionally returns the ordered list of remote calls
it issued, so that call-sequence claims are statable.
-/

/-- AWS-level errors as seen by the Go code: the typed s3tables exceptions,
a generic smithy API error carrying a code string, credential failures and
anything else. Mirrors the cases distinguished by `WrapError`/`isNotFoundError`. -/
inductive AwsError : Type
  | notFoundException
  | conflictException
  | forbiddenException
  | badRequestException
  | internalServerErrorException
  | apiError (code : String)
  | credentialsError
  | other (msg : String)
deriving Repr, DecidableEq

/-- `isNotFoundError` from creator.go: a typed NotFoundException, or a smithy
API error whose code is "NotFoundException". -/
def isNotFoundError : AwsError → Bool
  | .notFoundException => true
  | .apiError code => code == "NotFoundException"
  | _ => false

/-- `ErrorType` from errors.go. -/
inductive ErrorType : Type
  | unknown
  | notFound
  | conflict
  | forbidden
  | badRequest
  | internalServer
  | credentials
deriving Repr, DecidableEq

/-- `S3TablesError` from errors.go (the user-facing wrapped error). -/
structure S3TablesError : Type where
  originalErr : Option AwsError
  operation : String
  message : String
  suggestion : String
  etype : ErrorType
deriving Repr, DecidableEq

/-- `handleAPIError` from errors.go: classify a smithy API error by its code. -/
def handleAPIError (operation : String) (code : String) (orig : AwsError) : S3TablesError :=
  if code == "NotFoundException" then
    ⟨some orig, operation, "resource not found", "verify the resource name and try again", .notFound⟩
  else if code == "ConflictException" then
    ⟨some orig, operation, "resource already exists", "use a different name or check existing resources", .conflict⟩
  else if code == "ForbiddenException" || code == "AccessDeniedException" || code == "AccessDenied" then
    ⟨some orig, operation, "access denied", "check your AWS credentials and permissions", .forbidden⟩
  else if code == "BadRequestException" || code == "ValidationException" then
    ⟨some orig, operation, "invalid request", "check your input parameters", .badRequest⟩
  else
    ⟨some orig, operation, "API error: " ++ code, "", .unknown⟩

/-- `WrapError` from errors.go: convert an AWS error to an `S3TablesError`. -/
def wrapError (operation : String) (e : AwsError) : S3TablesError :=
  match e with
  | .notFoundException =>
    ⟨some e, operation, "resource not found", "verify the resource name and try again", .notFound⟩
  | .conflictException =>
    ⟨some e, operation, "resource already exists", "use a different name or check existing resources", .conflict⟩
  | .forbiddenException =>
    ⟨some e, operation, "access denied", "check your AWS credentials and permissions", .forbidden⟩
  | .badRequestException =>
    ⟨some e, operation, "invalid request", "check your input parameters", .badRequest⟩
  | .internalServerErrorException =>
    ⟨some e, operation, "AWS service error", "please retry the operation", .internalServer⟩
  | .apiError code => handleAPIError operation code e
  | .credentialsError =>
    ⟨some e, operation, "AWS credentials not configured",
      "configure AWS credentials using 'aws configure' or environment variables", .credentials⟩
  | .other msg => ⟨some e, operation, msg, "", .unknown⟩

/-- `aws.ToString` on a `*string`: nil becomes the empty string. -/
def awsToString (o : Option String) : String := o.getD ""

/-- `types.TableBucketSummary` (pointer fields become `Option`). -/
structure TableBucketSummary : Type where
  name : Option String
  arn : Option String
  createdAt : Option Nat
deriving Repr, DecidableEq

/-- `types.NamespaceSummary`: the namespace is a list of path components. -/
structure NamespaceSummary : Type where
  ns : List String
  createdAt : Option Nat
deriving Repr, DecidableEq

/-- `types.TableSummary`. -/
structure TableSummary : Type where
  name : Option String
  tableARN : Option String
  ns : List String
  createdAt : Option Nat
  ttype : String
deriving Repr, DecidableEq

/-- `s3tables.ListTableBucketsInput`. -/
structure ListTableBucketsInput : Type where
  pfx : Option String
  continuationToken : Option String
deriving Repr, DecidableEq

/-- `s3tables.ListTableBucketsOutput`. -/
structure ListTableBucketsOutput : Type where
  tableBuckets : List TableBucketSummary
  continuationToken : Option String
deriving Repr, DecidableEq

/-- `s3tables.CreateTableBucketInput`. -/
structure CreateTableBucketInput : Type where
  name : String
deriving Repr, DecidableEq

/-- `s3tables.CreateTableBucketOutput`. -/
structure CreateTableBucketOutput : Type where
  arn : Option String
deriving Repr, DecidableEq

/-- `s3tables.GetNamespaceInput`. -/
structure GetNamespaceInput : Type where
  tableBucketARN : String
  ns : String
deriving Repr, DecidableEq

/-- `s3tables.CreateNamespaceInput` (`Namespace []string`). -/
structure CreateNamespaceInput : Type where
  tableBucketARN : String
  ns : List String
deriving Repr, DecidableEq

/-- `s3tables.GetTableInput`. -/
structure GetTableInput : Type where
  tableBucketARN : String
  ns : String
  name : String
deriving Repr, DecidableEq

/-- `s3tables.GetTableOutput` (the fields the code reads). -/
structure GetTableOutput : Type where
  tableARN : Option String
  name : Option String
  createdAt : Option Nat
  ttype : String
deriving Repr, DecidableEq

/-- `types.OpenTableFormatIceberg`. -/
def openTableFormatIceberg : String := "ICEBERG"

/-- `s3tables.CreateTableInput`. -/
structure CreateTableInput : Type where
  tableBucketARN : String
  ns : String
  name : String
  format : String
deriving Repr, DecidableEq

/-- `s3tables.CreateTableOutput`. -/
structure CreateTableOutput : Type where
  tableARN : Option String
deriving Repr, DecidableEq

/-- `s3tables.ListNamespacesInput`. -/
structure ListNamespacesInput : Type where
  tableBucketARN : String
  pfx : Option String
  continuationToken : Option String
deriving Repr, DecidableEq

/-- `s3tables.ListNamespacesOutput`. -/
structure ListNamespacesOutput : Type where
  namespaces : List NamespaceSummary
  continuationToken : Option String
deriving Repr, DecidableEq

/-- `s3tables.ListTablesInput`. -/
structure ListTablesInput : Type where
  tableBucketARN : String
  ns : String
  pfx : Option String
  continuationToken : Option String
deriving Repr, DecidableEq

/-- `s3tables.ListTablesOutput`. -/
structure ListTablesOutput : Type where
  tables : List TableSummary
  continuationToken : Option String
deriving Repr, DecidableEq

/-- The `S3TablesAPI` interface from creator.go, as a record of oracle
functions over an abstract remote-service state `σ`; each call returns its
result (or an AWS error) together with the successor state. -/
structure S3TablesAPI (σ : Type) : Type where
  ListTableBuckets : σ → ListTableBucketsInput → Except AwsError ListTableBucketsOutput × σ
  CreateTableBucket : σ → CreateTableBucketInput → Except AwsError CreateTableBucketOutput × σ
  GetNamespace : σ → GetNamespaceInput → Except AwsError Unit × σ
  CreateNamespace : σ → CreateNamespaceInput → Except AwsError Unit × σ
  GetTable : σ → GetTableInput → Except AwsError GetTableOutput × σ
  CreateTable : σ → CreateTableInput → Except AwsError CreateTableOutput × σ
  ListNamespaces : σ → ListNamespacesInput → Except AwsError ListNamespacesOutput × σ
  ListTables : σ → ListTablesInput → Except AwsError ListTablesOutput × σ

/-- One remote call as observable at the `S3TablesAPI` port (operation plus
the arguments the code passes). -/
inductive RemoteCall : Type
  | listTableBuckets (pfx tok : Option String)
  | createTableBucket (name : String)
  | getNamespace (arn ns : String)
  | createNamespace (arn : String) (ns : List String)
  | getTable (arn ns name : String)
  | createTable (arn ns name fmt : String)
  | listNamespaces (arn : String) (pfx tok : Option String)
  | listTables (arn ns : String) (pfx tok : Option String)
deriving Repr, DecidableEq

/-- The operation a remote call invokes, arguments forgotten. -/
inductive CallKind : Type
  | listTableBuckets
  | createTableBucket
  | getNamespace
  | createNamespace
  | getTable
  | createTable
  | listNamespaces
  | listTables
deriving Repr, DecidableEq

/-- Kind of a remote call. -/
def RemoteCall.kind : RemoteCall → CallKind
  | .listTableBuckets _ _ => .listTableBuckets
  | .createTableBucket _ => .createTableBucket
  | .getNamespace _ _ => .getNamespace
  | .createNamespace _ _ => .createNamespace
  | .getTable _ _ _ => .getTable
  | .createTable _ _ _ _ => .createTable
  | .listNamespaces _ _ _ => .listNamespaces
  | .listTables _ _ _ _ => .listTables

/-- The AWS operation name used when wrapping an error for each call kind. -/
def opNameOf : CallKind → String
  | .listTableBuckets => "ListTableBuckets"
  | .createTableBucket => "CreateTableBucket"
  | .getNamespace => "GetNamespace"
  | .createNamespace => "CreateNamespace"
  | .getTable => "GetTable"
  | .createTable => "CreateTable"
  | .listNamespaces => "ListNamespaces"
  | .listTables => "ListTables"

/-- `CreateResult` from creator.go. -/
structure CreateResult : Type where
  tableBucketARN : String
  tableARN : String
  messages : List String
  tableBucketCreated : Bool
  namespaceCreated : Bool
  tableCreated : Bool
deriving Repr, DecidableEq

/-- `checkTableBucketExists` from creator.go: one `ListTableBuckets` call with
the bucket name as prefix filter, then a scan of the returned page for an
exact name match.  Returns `(exists, arn, err)` as in Go, plus the successor
remote state and the calls issued. -/
def checkTableBucketExists (cl : S3TablesAPI σ) (s : σ) (tableBucket : String) :
    (Bool × String × Option S3TablesError) × σ × List RemoteCall :=
  let call := RemoteCall.listTableBuckets (some tableBucket) none
  match cl.ListTableBuckets s ⟨some tableBucket, none⟩ with
  | (.error e, s') => ((false, "", some (wrapError "ListTableBuckets" e)), s', [call])
  | (.ok output, s') =>
    match output.tableBuckets.find? (fun bucket => awsToString bucket.name == tableBucket) with
    | some bucket => ((true, awsToString bucket.arn, none), s', [call])
    | none => ((false, "", none), s', [call])

/-- `checkNamespaceExists` from creator.go: a direct `GetNamespace` lookup;
NotFound becomes `(false, nil)`, other errors are wrapped and propagated. -/
def checkNamespaceExists (cl : S3TablesAPI σ) (s : σ) (tableBucketARN ns : String) :
    (Bool × Option S3TablesError) × σ × List RemoteCall :=
  let call := RemoteCall.getNamespace tableBucketARN ns
  match cl.GetNamespace s ⟨tableBucketARN, ns⟩ with
  | (.error e, s') =>
    if isNotFoundError e then ((false, none), s', [call])
    else ((false, some (wrapError "GetNamespace" e)), s', [call])
  | (.ok _, s') => ((true, none), s', [call])

/-- `checkTableExists` from creator.go: a direct `GetTable` lookup; NotFound
becomes `(false, "", nil)`, other errors are wrapped and propagated; on
success the table's ARN is returned. -/
def checkTableExists (cl : S3TablesAPI σ) (s : σ) (tableBucketARN ns table : String) :
    (Bool × String × Option S3TablesError) × σ × List RemoteCall :=
  let call := RemoteCall.getTable tableBucketARN ns table
  match cl.GetTable s ⟨tableBucketARN, ns, table⟩ with
  | (.error e, s') =>
    if isNotFoundError e then ((false, "", none), s', [call])
    else ((false, "", some (wrapError "GetTable" e)), s', [call])
  | (.ok output, s') => ((true, awsToString output.tableARN, none), s', [call])

/-- `ensureTableBucket` from creator.go: check, then create if absent;
returns `(arn, err)` and the updated result record. -/
def ensureTableBucket (cl : S3TablesAPI σ) (s : σ) (tableBucket : String)
    (result : CreateResult) :
    (String × Option S3TablesError) × CreateResult × σ × List RemoteCall :=
  match checkTableBucketExists cl s tableBucket with
  | ((_, _, some err), s', tr) => (("", some err), result, s', tr)
  | ((true, arn, none), s', tr) =>
    ((arn, none),
      { result with
          tableBucketARN := arn
          messages := result.messages ++ ["Table Bucket '" ++ tableBucket ++ "' already exists"] },
      s', tr)
  | ((false, _, none), s', tr) =>
    let call := RemoteCall.createTableBucket tableBucket
    match cl.CreateTableBucket s' ⟨tableBucket⟩ with
    | (.error e, s'') =>
      (("", some (wrapError "CreateTableBucket" e)), result, s'', tr ++ [call])
    | (.ok output, s'') =>
      let arn := awsToString output.arn
      ((arn, none),
        { result with
            tableBucketCreated := true
            tableBucketARN := arn
            messages := result.messages ++ ["Table Bucket '" ++ tableBucket ++ "' created"] },
        s'', tr ++ [call])

/-- `ensureNamespace` from creator.go. -/
def ensureNamespace (cl : S3TablesAPI σ) (s : σ) (tableBucketARN ns : String)
    (result : CreateResult) :
    Option S3TablesError × CreateResult × σ × List RemoteCall :=
  match checkNamespaceExists cl s tableBucketARN ns with
  | ((_, some err), s', tr) => (some err, result, s', tr)
  | ((true, none), s', tr) =>
    (none,
      { result with messages := result.messages ++ ["Namespace '" ++ ns ++ "' already exists"] },
      s', tr)
  | ((false, none), s', tr) =>
    let call := RemoteCall.createNamespace tableBucketARN [ns]
    match cl.CreateNamespace s' ⟨tableBucketARN, [ns]⟩ with
    | (.error e, s'') => (some (wrapError "CreateNamespace" e), result, s'', tr ++ [call])
    | (.ok _, s'') =>
      (none,
        { result with
            namespaceCreated := true
            messages := result.messages ++ ["Namespace '" ++ ns ++ "' created"] },
        s'', tr ++ [call])

/-- `ensureTable` from creator.go (created tables use the fixed Iceberg
format constant). -/
def ensureTable (cl : S3TablesAPI σ) (s : σ) (tableBucketARN ns table : String)
    (result : CreateResult) :
    Option S3TablesError × CreateResult × σ × List RemoteCall :=
  match checkTableExists cl s tableBucketARN ns table with
  | ((_, _, some err), s', tr) => (some err, result, s', tr)
  | ((true, tableARN, none), s', tr) =>
    (none,
      { result with
          tableARN := tableARN
          messages := result.messages ++ ["Table '" ++ table ++ "' already exists"] },
      s', tr)
  | ((false, _, none), s', tr) =>
    let call := RemoteCall.createTable tableBucketARN ns table openTableFormatIceberg
    match cl.CreateTable s' ⟨tableBucketARN, ns, table, openTableFormatIceberg⟩ with
    | (.error e, s'') => (some (wrapError "CreateTable" e), result, s'', tr ++ [call])
    | (.ok output, s'') =>
      (none,
        { result with
            tableCreated := true
            tableARN := awsToString output.tableARN
            messages := result.messages ++ ["Table '" ++ table ++ "' created"] },
        s'', tr ++ [call])

/-- `Create` from creator.go: Table Bucket → Namespace → Table, aborting on
the first error; returns `(result-or-nil, err)` as in Go plus the successor
state and the full ordered remote-call trace. -/
def Create (cl : S3TablesAPI σ) (s : σ) (tableBucket ns table : String) :
    (Option CreateResult × Option S3TablesError) × σ × List RemoteCall :=
  let result0 : CreateResult := ⟨"", "", [], false, false, false⟩
  match ensureTableBucket cl s tableBucket result0 with
  | ((_, some err), _, s1, tr1) => ((none, some err), s1, tr1)
  | ((arn, none), r1, s1, tr1) =>
    match ensureNamespace cl s1 arn ns r1 with
    | (some err, _, s2, tr2) => ((none, some err), s2, tr1 ++ tr2)
    | (none, r2, s2, tr2) =>
      match ensureTable cl s2 arn ns table r2 with
      | (some err, _, s3, tr3) => ((none, some err), s3, tr1 ++ tr2 ++ tr3)
      | (none, r3, s3, tr3) => ((some r3, none), s3, tr1 ++ tr2 ++ tr3)

/-- `aws.ToTime` on a `*time.Time`: nil becomes the zero time (times are
modelled as naturals). -/
def awsToTime (o : Option Nat) : Nat := o.getD 0

/-- `TableBucketInfo` from lister.go. -/
structure TableBucketInfo : Type where
  name : String
  arn : String
  createdAt : Nat
deriving Repr, DecidableEq

/-- `NamespaceInfo` from lister.go. -/
structure NamespaceInfo : Type where
  name : String
  createdAt : Nat
deriving Repr, DecidableEq

/-- `TableInfo` from lister.go. -/
structure TableInfo : Type where
  name : String
  arn : String
  ns : String
  createdAt : Nat
  ttype : String
deriving Repr, DecidableEq

/-- Conversion of one `TableBucketSummary` page entry performed inside the
`ListTableBucketsAll` loop. -/
def tableBucketInfoOf (bucket : TableBucketSummary) : TableBucketInfo :=
  ⟨awsToString bucket.name, awsToString bucket.arn, awsToTime bucket.createdAt⟩

/-- Conversion of one `NamespaceSummary` page entry performed inside the
`ListNamespacesAll` loop (`name = ns.Namespace[0]` when non-empty, else ""). -/
def namespaceInfoOf (ns : NamespaceSummary) : NamespaceInfo :=
  ⟨ns.ns.headD "", awsToTime ns.createdAt⟩

/-- Conversion of one `TableSummary` page entry performed inside the
`ListTablesAll` loop. -/
def tableInfoOf (tbl : TableSummary) : TableInfo :=
  ⟨awsToString tbl.name, awsToString tbl.tableARN, tbl.ns.headD "",
    awsToTime tbl.createdAt, tbl.ttype⟩

/-- The `for`-loop body of `ListTableBucketsAll` from lister.go, as a
fuel-indexed recursion (`none` = fuel exhausted, which a terminating remote
never reaches).  `acc` is the slice built so far, `token` the continuation
token to send (nil on the first call); the loop stops when the returned
token is absent or empty. -/
def ListTableBucketsAllGo (cl : S3TablesAPI σ) (pfx : String) :
    Nat → σ → List TableBucketInfo → Option String →
    Option (Except S3TablesError (List TableBucketInfo) × σ × List RemoteCall)
  | 0, _, _, _ => none
  | fuel + 1, s, acc, token =>
    let inpPfx := if pfx == "" then none else some pfx
    let call := RemoteCall.listTableBuckets inpPfx token
    match cl.ListTableBuckets s ⟨inpPfx, token⟩ with
    | (.error e, s') => some (.error (wrapError "ListTableBuckets" e), s', [call])
    | (.ok output, s') =>
      let acc' := acc ++ output.tableBuckets.map tableBucketInfoOf
      match output.continuationToken with
      | none => some (.ok acc', s', [call])
      | some tok =>
        if tok == "" then some (.ok acc', s', [call])
        else
          match ListTableBucketsAllGo cl pfx fuel s' acc' (some tok) with
          | none => none
          | some (res, s'', tr) => some (res, s'', call :: tr)

/-- `ListTableBucketsAll` from lister.go: drain the paginated listing into
one ordered slice. -/
def ListTableBucketsAll (cl : S3TablesAPI σ) (fuel : Nat) (s : σ) (pfx : String) :
    Option (Except S3TablesError (List TableBucketInfo) × σ × List RemoteCall) :=
  ListTableBucketsAllGo cl pfx fuel s [] none

/-- The `for`-loop body of `ListNamespacesAll` from lister.go. -/
def ListNamespacesAllGo (cl : S3TablesAPI σ) (tableBucketARN pfx : String) :
    Nat → σ → List NamespaceInfo → Option String →
    Option (Except S3TablesError (List NamespaceInfo) × σ × List RemoteCall)
  | 0, _, _, _ => none
  | fuel + 1, s, acc, token =>
    let inpPfx := if pfx == "" then none else some pfx
    let call := RemoteCall.listNamespaces tableBucketARN inpPfx token
    match cl.ListNamespaces s ⟨tableBucketARN, inpPfx, token⟩ with
    | (.error e, s') => some (.error (wrapError "ListNamespaces" e), s', [call])
    | (.ok output, s') =>
      let acc' := acc ++ output.namespaces.map namespaceInfoOf
      match output.continuationToken with
      | none => some (.ok acc', s', [call])
      | some tok =>
        if tok == "" then some (.ok acc', s', [call])
        else
          match ListNamespacesAllGo cl tableBucketARN pfx fuel s' acc' (some tok) with
          | none => none
          | some (res, s'', tr) => some (res, s'', call :: tr)

/-- `ListNamespacesAll` from lister.go. -/
def ListNamespacesAll (cl : S3TablesAPI σ) (fuel : Nat) (s : σ) (tableBucketARN pfx : String) :
    Option (Except S3TablesError (List NamespaceInfo) × σ × List RemoteCall) :=
  ListNamespacesAllGo cl tableBucketARN pfx fuel s [] none

/-- The `for`-loop body of `ListTablesAll` from lister.go. -/
def ListTablesAllGo (cl : S3TablesAPI σ) (tableBucketARN ns pfx : String) :
    Nat → σ → List TableInfo → Option String →
    Option (Except S3TablesError (List TableInfo) × σ × List RemoteCall)
  | 0, _, _, _ => none
  | fuel + 1, s, acc, token =>
    let inpPfx := if pfx == "" then none else some pfx
    let call := RemoteCall.listTables tableBucketARN ns inpPfx token
    match cl.ListTables s ⟨tableBucketARN, ns, inpPfx, token⟩ with
    | (.error e, s') => some (.error (wrapError "ListTables" e), s', [call])
    | (.ok output, s') =>
      let acc' := acc ++ output.tables.map tableInfoOf
      match output.continuationToken with
      | none => some (.ok acc', s', [call])
      | some tok =>
        if tok == "" then some (.ok acc', s', [call])
        else
          match ListTablesAllGo cl tableBucketARN ns pfx fuel s' acc' (some tok) with
          | none => none
          | some (res, s'', tr) => some (res, s'', call :: tr)

/-- `ListTablesAll` from lister.go. -/
def ListTablesAll (cl : S3TablesAPI σ) (fuel : Nat) (s : σ) (tableBucketARN ns pfx : String) :
    Option (Except S3TablesError (List TableInfo) × σ × List RemoteCall) :=
  ListTablesAllGo cl tableBucketARN ns pfx fuel s [] none

/-- `NavigationLevel` from navigator.go. -/
inductive NavigationLevel : Type
  | tableBucket
  | nsLevel
  | table
deriving Repr, DecidableEq

/-- `NavigationAction` from navigator.go. -/
inductive NavigationAction : Type
  | select
  | back
  | exit
deriving Repr, DecidableEq

/-- `SelectionResult` from selector.go. -/
structure SelectionResult : Type where
  selected : String
  action : NavigationAction
deriving Repr, DecidableEq

/-- `NavigationState` from navigator.go; Go's nil-able cache slices become
`Option` lists (`none` = not yet fetched). -/
structure NavigationState : Type where
  level : NavigationLevel
  tableBuckets : Option (List TableBucketInfo)
  namespaces : Option (List NamespaceInfo)
  tables : Option (List TableInfo)
  selectedBucket : String
  selectedBucketARN : String
  selectedNamespace : String
deriving Repr, DecidableEq

/-- An error surfaced by a navigation session: either a wrapped remote
error or an error from the interactive selector. -/
inductive NavError : Type
  | remote (e : S3TablesError)
  | selector (msg : String)
deriving Repr, DecidableEq

/-- One `SelectWithFilter` prompt as observed at the SelectionPort:
label, items offered, and whether a back option was shown. -/
structure Prompt : Type where
  label : String
  items : List String
  showBack : Bool
deriving Repr, DecidableEq

/-- The `InteractiveSelector` port: the response to the k-th prompt of the
session (an arbitrary user/selector behaviour, possibly an error). -/
def SelectorOracle : Type := Nat → Except String SelectionResult

/-- The part of `navigateTableBuckets` after the cache-ensure step: the
empty-list check, the selection prompt (no back option at top level), and
the selected-bucket bookkeeping with invalidation of the deeper caches.
`tr` is the remote trace of the preceding fetch (empty on a cache hit). -/
def navigateTableBucketsRest (sel : SelectorOracle) (st : NavigationState) (s : σ)
    (k : Nat) (tr : List RemoteCall) :
    (NavigationAction × Option NavError) × NavigationState × σ × List RemoteCall × List Prompt :=
  let buckets := st.tableBuckets.getD []
  if buckets.isEmpty then ((.exit, none), st, s, tr, [])
  else
    let names := buckets.map (fun bucket => bucket.name)
    let pr : Prompt := ⟨"Select Table Bucket", names, false⟩
    match sel k with
    | .error msg => ((.exit, some (.selector msg)), st, s, tr, [pr])
    | .ok result =>
      if result.action == .back || result.action == .exit then
        ((result.action, none), st, s, tr, [pr])
      else
        let st' :=
          match buckets.find? (fun bucket => bucket.name == result.selected) with
          | some bucket =>
            { st with
                selectedBucket := bucket.name
                selectedBucketARN := bucket.arn }
          | none => st
        (( .select, none),
          { st' with
              namespaces := none
              tables := none },
          s, tr, [pr])

/-- `navigateTableBuckets` from navigator.go: fetch the bucket list if not
cached, then run the level logic.  Returns `(action, err)` as in Go, plus
the updated state, remote state, remote calls and prompts issued. -/
def navigateTableBuckets (cl : S3TablesAPI σ) (fuel : Nat) (sel : SelectorOracle)
    (st : NavigationState) (s : σ) (k : Nat) :
    Option ((NavigationAction × Option NavError) × NavigationState × σ × List RemoteCall × List Prompt) :=
  match st.tableBuckets with
  | none =>
    match ListTableBucketsAll cl fuel s "" with
    | none => none
    | some (.error err, s', tr) => some ((.exit, some (.remote err)), st, s', tr, [])
    | some (.ok buckets, s', tr) =>
      some (navigateTableBucketsRest sel { st with tableBuckets := some buckets } s' k tr)
  | some _ => some (navigateTableBucketsRest sel st s k [])

/-- The part of `navigateNamespaces` after the cache-ensure step (empty ⇒
`ActionBack`; otherwise prompt with a back option; a selection stores the
namespace and clears the table cache). -/
def navigateNamespacesRest (sel : SelectorOracle) (st : NavigationState) (s : σ)
    (k : Nat) (tr : List RemoteCall) :
    (NavigationAction × Option NavError) × NavigationState × σ × List RemoteCall × List Prompt :=
  let nss := st.namespaces.getD []
  if nss.isEmpty then ((.back, none), st, s, tr, [])
  else
    let names := nss.map (fun ns => ns.name)
    let pr : Prompt := ⟨"Select Namespace", names, true⟩
    match sel k with
    | .error msg => ((.exit, some (.selector msg)), st, s, tr, [pr])
    | .ok result =>
      if result.action == .back then ((.back, none), st, s, tr, [pr])
      else if result.action == .exit then ((.exit, none), st, s, tr, [pr])
      else
        (( .select, none),
          { st with
              selectedNamespace := result.selected
              tables := none },
          s, tr, [pr])

/-- `navigateNamespaces` from navigator.go. -/
def navigateNamespaces (cl : S3TablesAPI σ) (fuel : Nat) (sel : SelectorOracle)
    (st : NavigationState) (s : σ) (k : Nat) :
    Option ((NavigationAction × Option NavError) × NavigationState × σ × List RemoteCall × List Prompt) :=
  match st.namespaces with
  | none =>
    match ListNamespacesAll cl fuel s st.selectedBucketARN "" with
    | none => none
    | some (.error err, s', tr) => some ((.exit, some (.remote err)), st, s', tr, [])
    | some (.ok nss, s', tr) =>
      some (navigateNamespacesRest sel { st with namespaces := some nss } s' k tr)
  | some _ => some (navigateNamespacesRest sel st s k [])

/-- The part of `navigateTables` after the cache-ensure step (empty ⇒
`ActionBack`; a selection displays the chosen table's details and returns
`ActionSelect`). -/
def navigateTablesRest (sel : SelectorOracle) (st : NavigationState) (s : σ)
    (k : Nat) (tr : List RemoteCall) :
    (NavigationAction × Option NavError) × NavigationState × σ × List RemoteCall × List Prompt :=
  let tbls := st.tables.getD []
  if tbls.isEmpty then ((.back, none), st, s, tr, [])
  else
    let names := tbls.map (fun tbl => tbl.name)
    let pr : Prompt := ⟨"Select Table", names, true⟩
    match sel k with
    | .error msg => ((.exit, some (.selector msg)), st, s, tr, [pr])
    | .ok result =>
      if result.action == .back then ((.back, none), st, s, tr, [pr])
      else if result.action == .exit then ((.exit, none), st, s, tr, [pr])
      else ((.select, none), st, s, tr, [pr])

/-- `navigateTables` from navigator.go. -/
def navigateTables (cl : S3TablesAPI σ) (fuel : Nat) (sel : SelectorOracle)
    (st : NavigationState) (s : σ) (k : Nat) :
    Option ((NavigationAction × Option NavError) × NavigationState × σ × List RemoteCall × List Prompt) :=
  match st.tables with
  | none =>
    match ListTablesAll cl fuel s st.selectedBucketARN st.selectedNamespace "" with
    | none => none
    | some (.error err, s', tr) => some ((.exit, some (.remote err)), st, s', tr, [])
    | some (.ok tbls, s', tr) =>
      some (navigateTablesRest sel { st with tables := some tbls } s' k tr)
  | some _ => some (navigateTablesRest sel st s k [])

/-- The `for`-loop of `Navigate` from navigator.go, as a fuel-indexed
recursion over loop iterations (`none` = fuel exhausted).  `k` counts the
prompts issued so far; traces and prompts of all iterations are
concatenated in order.  Returns the session's final error (nil on clean
termination), state, remote state, remote calls and prompts. -/
def navigateLoop (cl : S3TablesAPI σ) (fuel : Nat) (sel : SelectorOracle) :
    Nat → NavigationState → σ → Nat →
    Option (Option NavError × NavigationState × σ × List RemoteCall × List Prompt)
  | 0, _, _, _ => none
  | outer + 1, st, s, k =>
    match st.level with
    | .tableBucket =>
      match navigateTableBuckets cl fuel sel st s k with
      | none => none
      | some ((_, some err), st', s', tr, pr) => some (some err, st', s', tr, pr)
      | some ((action, none), st', s', tr, pr) =>
        if action == .back || action == .exit then some (none, st', s', tr, pr)
        else
          let st'' := if action == .select then { st' with level := .nsLevel } else st'
          match navigateLoop cl fuel sel outer st'' s' (k + pr.length) with
          | none => none
          | some (res, stF, sF, tr2, pr2) => some (res, stF, sF, tr ++ tr2, pr ++ pr2)
    | .nsLevel =>
      match navigateNamespaces cl fuel sel st s k with
      | none => none
      | some ((_, some err), st', s', tr, pr) => some (some err, st', s', tr, pr)
      | some ((action, none), st', s', tr, pr) =>
        if action == .exit then some (none, st', s', tr, pr)
        else
          let st'' :=
            if action == .back then { st' with level := .tableBucket }
            else if action == .select then { st' with level := .table }
            else st'
          match navigateLoop cl fuel sel outer st'' s' (k + pr.length) with
          | none => none
          | some (res, stF, sF, tr2, pr2) => some (res, stF, sF, tr ++ tr2, pr ++ pr2)
    | .table =>
      match navigateTables cl fuel sel st s k with
      | none => none
      | some ((_, some err), st', s', tr, pr) => some (some err, st', s', tr, pr)
      | some ((action, none), st', s', tr, pr) =>
        if action == .exit then some (none, st', s', tr, pr)
        else if action == .back then
          match navigateLoop cl fuel sel outer { st' with level := .nsLevel } s' (k + pr.length) with
          | none => none
          | some (res, stF, sF, tr2, pr2) => some (res, stF, sF, tr ++ tr2, pr ++ pr2)
        else some (none, st', s', tr, pr)

/-- `Navigate` from navigator.go: set the start level and run the loop. -/
def Navigate (cl : S3TablesAPI σ) (fuel outer : Nat) (sel : SelectorOracle)
    (startLevel : NavigationLevel) (st : NavigationState) (s : σ) :
    Option (Option NavError × NavigationState × σ × List RemoteCall × List Prompt) :=
  navigateLoop cl fuel sel outer { st with level := startLevel } s 0

/-- The canonical full remote-call sequence of a `Create` invocation. -/
def createCanonicalKinds : List CallKind :=
  [.listTableBuckets, .createTableBucket, .getNamespace, .createNamespace, .getTable, .createTable]

/-! Concrete clients used to witness the claim theorems. -/

/-- A pure client whose bucket listing returns a proper prefix-extension
before the exact name, and whose lookups fail as indicated. -/
def c6Client : S3TablesAPI Unit where
  ListTableBuckets := fun s _ =>
    (.ok ⟨[⟨some "foobar", some "arn-foobar", none⟩, ⟨some "foo", some "arn-foo", none⟩], none⟩, s)
  CreateTableBucket := fun s _ => (.error (.other "unsupported"), s)
  GetNamespace := fun s _ => (.error (.other "unsupported"), s)
  CreateNamespace := fun s _ => (.error (.other "unsupported"), s)
  GetTable := fun s _ => (.error (.other "unsupported"), s)
  CreateTable := fun s _ => (.error (.other "unsupported"), s)
  ListNamespaces := fun s _ => (.error (.other "unsupported"), s)
  ListTables := fun s _ => (.error (.other "unsupported"), s)

/-- A client whose namespace lookup reports NotFound (typed) and whose table
lookup reports NotFound through the smithy code path. -/
def c7aClient : S3TablesAPI Unit where
  ListTableBuckets := fun s _ => (.error (.other "unsupported"), s)
  CreateTableBucket := fun s _ => (.error (.other "unsupported"), s)
  GetNamespace := fun s _ => (.error .notFoundException, s)
  CreateNamespace := fun s _ => (.error (.other "unsupported"), s)
  GetTable := fun s _ => (.error (.apiError "NotFoundException"), s)
  CreateTable := fun s _ => (.error (.other "unsupported"), s)
  ListNamespaces := fun s _ => (.error (.other "unsupported"), s)
  ListTables := fun s _ => (.error (.other "unsupported"), s)

/-- A client whose namespace and table lookups fail with non-NotFound kinds. -/
def c7bClient : S3TablesAPI Unit where
  ListTableBuckets := fun s _ => (.error (.other "unsupported"), s)
  CreateTableBucket := fun s _ => (.error (.other "unsupported"), s)
  GetNamespace := fun s _ => (.error .forbiddenException, s)
  CreateNamespace := fun s _ => (.error (.other "unsupported"), s)
  GetTable := fun s _ => (.error .badRequestException, s)
  CreateTable := fun s _ => (.error (.other "unsupported"), s)
  ListNamespaces := fun s _ => (.error (.other "unsupported"), s)
  ListTables := fun s _ => (.error (.other "unsupported"), s)

/-- A paginating client (state = page counter): the first bucket page holds
only a non-matching name and links to a second page holding the exact
match. -/
def c10Client : S3TablesAPI Nat where
  ListTableBuckets := fun n _ =>
    if n == 0 then (.ok ⟨[⟨some "bb", some "arn-bb", none⟩], some "tok2"⟩, 1)
    else (.ok ⟨[⟨some "b", some "arn-b", none⟩], none⟩, n + 1)
  CreateTableBucket := fun s _ => (.error (.other "unsupported"), s)
  GetNamespace := fun s _ => (.error (.other "unsupported"), s)
  CreateNamespace := fun s _ => (.error (.other "unsupported"), s)
  GetTable := fun s _ => (.error (.other "unsupported"), s)
  CreateTable := fun s _ => (.error (.other "unsupported"), s)
  ListNamespaces := fun s _ => (.error (.other "unsupported"), s)
  ListTables := fun s _ => (.error (.other "unsupported"), s)

/-- A client for which bucket and namespace are absent, bucket creation
succeeds, and namespace creation fails with a Conflict. -/
def failNsCreateClient : S3TablesAPI Unit where
  ListTableBuckets := fun s _ => (.ok ⟨[], none⟩, s)
  CreateTableBucket := fun s _ => (.ok ⟨some "arn-b"⟩, s)
  GetNamespace := fun s _ => (.error .notFoundException, s)
  CreateNamespace := fun s _ => (.error .conflictException, s)
  GetTable := fun s _ => (.error (.other "unsupported"), s)
  CreateTable := fun s _ => (.error (.other "unsupported"), s)
  ListNamespaces := fun s _ => (.error (.other "unsupported"), s)
  ListTables := fun s _ => (.error (.other "unsupported"), s)

/-- An existence environment: which of the three levels pre-exist, and the
identifier strings a well-behaved remote reports for them. -/
structure ExistenceEnv : Type where
  bucketExists : Bool
  nsExists : Bool
  tblExists : Bool
  bucketArn : String
  createdBucketArn : String
  tableArn : String
  createdTableArn : String
deriving Repr, DecidableEq

/-- The remote service induced by an `ExistenceEnv` for the names
`(b, ns, t)`: checks answer according to the environment, creates always
succeed. -/
def envClient (b ns t : String) (env : ExistenceEnv) : S3TablesAPI Unit where
  ListTableBuckets := fun s inp =>
    (if env.bucketExists && inp.pfx == some b then
        .ok ⟨[⟨some b, some env.bucketArn, none⟩], none⟩
      else .ok ⟨[], none⟩, s)
  CreateTableBucket := fun s _ => (.ok ⟨some env.createdBucketArn⟩, s)
  GetNamespace := fun s inp =>
    (if env.nsExists && inp.ns == ns then .ok () else .error .notFoundException, s)
  CreateNamespace := fun s _ => (.ok (), s)
  GetTable := fun s inp =>
    (if env.tblExists && inp.name == t then .ok ⟨some env.tableArn, some t, none, "ICEBERG"⟩
      else .error .notFoundException, s)
  CreateTable := fun s _ => (.ok ⟨some env.createdTableArn⟩, s)
  ListNamespaces := fun s _ => (.ok ⟨[], none⟩, s)
  ListTables := fun s _ => (.ok ⟨[], none⟩, s)

/-- The state of a deterministic in-memory remote service: existing buckets
(name, arn), namespaces (bucket arn, name) and tables (key, table arn). -/
structure Service : Type where
  buckets : List (String × String)
  namespaces : List (String × String)
  tables : List ((String × String × String) × String)
deriving Repr, DecidableEq

/-- The ARN this fake service assigns to a newly created bucket. -/
def mkBucketArn (name : String) : String := "arn:aws:s3tables:::bucket/" ++ name

/-- The ARN this fake service assigns to a newly created table. -/
def mkTableArn (arn ns name : String) : String := arn ++ "/table/" ++ ns ++ "/" ++ name

/-- The single page the fake service returns for a bucket listing: all
buckets whose name extends the requested prefix. -/
def bucketsPage (l : List (String × String)) (p : Option String) : List TableBucketSummary :=
  (l.filter (fun bn => (awsToString p).data.isPrefixOf bn.1.data)).map
    (fun bn => ⟨some bn.1, some bn.2, none⟩)

/-- A deterministic error-free remote service over a `Service` state whose
state changes only through the create calls: listings are prefix-filtered
single pages, lookups answer from the state, creates append to it. -/
def svcClient : S3TablesAPI Service where
  ListTableBuckets := fun svc inp => (.ok ⟨bucketsPage svc.buckets inp.pfx, none⟩, svc)
  CreateTableBucket := fun svc inp =>
    (.ok ⟨some (mkBucketArn inp.name)⟩,
      { svc with buckets := svc.buckets ++ [(inp.name, mkBucketArn inp.name)] })
  GetNamespace := fun svc inp =>
    (if svc.namespaces.contains (inp.tableBucketARN, inp.ns) then .ok ()
      else .error .notFoundException, svc)
  CreateNamespace := fun svc inp =>
    (.ok (), { svc with namespaces := svc.namespaces ++ [(inp.tableBucketARN, inp.ns.headD "")] })
  GetTable := fun svc inp =>
    (match svc.tables.find? (fun kv => kv.1 == (inp.tableBucketARN, inp.ns, inp.name)) with
      | some kv => .ok ⟨some kv.2, some inp.name, none, "ICEBERG"⟩
      | none => .error .notFoundException, svc)
  CreateTable := fun svc inp =>
    (.ok ⟨some (mkTableArn inp.tableBucketARN inp.ns inp.name)⟩,
      { svc with tables := svc.tables ++
          [((inp.tableBucketARN, inp.ns, inp.name),
            mkTableArn inp.tableBucketARN inp.ns inp.name)] })
  ListNamespaces := fun svc inp =>
    (.ok ⟨(svc.namespaces.filter (fun an => an.1 == inp.tableBucketARN)).map
        (fun an => ⟨[an.2], none⟩), none⟩, svc)
  ListTables := fun svc inp =>
    (.ok ⟨(svc.tables.filter (fun kv => kv.1.1 == inp.tableBucketARN && kv.1.2.1 == inp.ns)).map
        (fun kv => ⟨some kv.1.2.2, some kv.2, [kv.1.2.1], none, "ICEBERG"⟩), none⟩, svc)

/-- The bucket entry `Create` resolves for name `b`: the first existing
bucket named `b`, else the entry a create would add. -/
def Service.bucketEntry (svc : Service) (b : String) : String × String :=
  (svc.buckets.find? (fun x => x.1 == b)).getD (b, mkBucketArn b)

/-- The table ARN `Create` resolves under `(arn, ns, t)`: the stored one if
present, else the one a create would assign. -/
def Service.tableRefAt (svc : Service) (arn ns t : String) : String :=
  ((svc.tables.find? (fun kv => kv.1 == (arn, ns, t))).map (fun kv => kv.2)).getD
    (mkTableArn arn ns t)

/-- The non-empty continuation token a script client links page k to page
k+1 with. -/
def pageToken {α : Type} (rest : List α) : String := "page-" ++ toString rest.length

/-- A paginating remote: its state is the expected next token and the
remaining page script (a page per call, or an injected error); a stale or
wrong token is rejected. -/
def scriptBucketsClient :
    S3TablesAPI (Option String × List (Except AwsError (List TableBucketSummary))) where
  ListTableBuckets := fun st inp =>
    if inp.continuationToken == st.1 then
      match st.2 with
      | [] => (.ok ⟨[], none⟩, (none, []))
      | .error e :: rest => (.error e, (st.1, rest))
      | .ok p :: rest =>
        if rest.isEmpty then (.ok ⟨p, none⟩, (none, []))
        else (.ok ⟨p, some (pageToken rest)⟩, (some (pageToken rest), rest))
    else (.error (.other "stale continuation token"), st)
  CreateTableBucket := fun s _ => (.error (.other "unsupported"), s)
  GetNamespace := fun s _ => (.error (.other "unsupported"), s)
  CreateNamespace := fun s _ => (.error (.other "unsupported"), s)
  GetTable := fun s _ => (.error (.other "unsupported"), s)
  CreateTable := fun s _ => (.error (.other "unsupported"), s)
  ListNamespaces := fun s _ => (.error (.other "unsupported"), s)
  ListTables := fun s _ => (.error (.other "unsupported"), s)

/-- Namespace-listing analogue of `scriptBucketsClient`. -/
def scriptNamespacesClient :
    S3TablesAPI (Option String × List (Except AwsError (List NamespaceSummary))) where
  ListTableBuckets := fun s _ => (.error (.other "unsupported"), s)
  CreateTableBucket := fun s _ => (.error (.other "unsupported"), s)
  GetNamespace := fun s _ => (.error (.other "unsupported"), s)
  CreateNamespace := fun s _ => (.error (.other "unsupported"), s)
  GetTable := fun s _ => (.error (.other "unsupported"), s)
  CreateTable := fun s _ => (.error (.other "unsupported"), s)
  ListNamespaces := fun st inp =>
    if inp.continuationToken == st.1 then
      match st.2 with
      | [] => (.ok ⟨[], none⟩, (none, []))
      | .error e :: rest => (.error e, (st.1, rest))
      | .ok p :: rest =>
        if rest.isEmpty then (.ok ⟨p, none⟩, (none, []))
        else (.ok ⟨p, some (pageToken rest)⟩, (some (pageToken rest), rest))
    else (.error (.other "stale continuation token"), st)
  ListTables := fun s _ => (.error (.other "unsupported"), s)

/-- Table-listing analogue of `scriptBucketsClient`. -/
def scriptTablesClient :
    S3TablesAPI (Option String × List (Except AwsError (List TableSummary))) where
  ListTableBuckets := fun s _ => (.error (.other "unsupported"), s)
  CreateTableBucket := fun s _ => (.error (.other "unsupported"), s)
  GetNamespace := fun s _ => (.error (.other "unsupported"), s)
  CreateNamespace := fun s _ => (.error (.other "unsupported"), s)
  GetTable := fun s _ => (.error (.other "unsupported"), s)
  CreateTable := fun s _ => (.error (.other "unsupported"), s)
  ListNamespaces := fun s _ => (.error (.other "unsupported"), s)
  ListTables := fun st inp =>
    if inp.continuationToken == st.1 then
      match st.2 with
      | [] => (.ok ⟨[], none⟩, (none, []))
      | .error e :: rest => (.error e, (st.1, rest))
      | .ok p :: rest =>
        if rest.isEmpty then (.ok ⟨p, none⟩, (none, []))
        else (.ok ⟨p, some (pageToken rest)⟩, (some (pageToken rest), rest))
    else (.error (.other "stale continuation token"), st)

/-- The zero `NavigationState` a `NewNavigationController` starts with
(level TableBucket, no caches, empty selections). -/
def initNavState : NavigationState := ⟨.tableBucket, none, none, none, "", "", ""⟩

/-- A remote serving fixed single-page listings at every level. -/
def fixedClient (bs : List TableBucketSummary) (nss : List NamespaceSummary)
    (ts : List TableSummary) : S3TablesAPI Unit where
  ListTableBuckets := fun s _ => (.ok ⟨bs, none⟩, s)
  CreateTableBucket := fun s _ => (.error (.other "unsupported"), s)
  GetNamespace := fun s _ => (.error (.other "unsupported"), s)
  CreateNamespace := fun s _ => (.error (.other "unsupported"), s)
  GetTable := fun s _ => (.error (.other "unsupported"), s)
  CreateTable := fun s _ => (.error (.other "unsupported"), s)
  ListNamespaces := fun s _ => (.ok ⟨nss, none⟩, s)
  ListTables := fun s _ => (.ok ⟨ts, none⟩, s)

/-- The selector script of a Bucket→Namespace→Table forward walk followed
by Back, Back, Exit. -/
def walkSel (bname nsname : String) : SelectorOracle := fun k =>
  if k == 0 then .ok ⟨bname, .select⟩
  else if k == 1 then .ok ⟨nsname, .select⟩
  else if k == 2 then .ok ⟨"", .back⟩
  else if k == 3 then .ok ⟨"", .back⟩
  else .ok ⟨"", .exit⟩

/-! Claim theorems. -/

/-- C6: the bucket-level existence check lists buckets filtered by the
queried name as prefix (a single `ListTableBuckets` call with that prefix)
and scans for an exact name match: if no listed name equals the queried
name (in particular when every listed name is a proper prefix-extension)
it returns `exists=false` with an empty ref and no error; if an exact
match is found it returns `exists=true` with that bucket's ARN. -/
theorem checkTableBucketExists_exact_scan {σ : Type} (cl : S3TablesAPI σ) (s : σ)
    (b : String) :
    (checkTableBucketExists cl s b).2.2 = [RemoteCall.listTableBuckets (some b) none]
    ∧ (∀ out s', cl.ListTableBuckets s ⟨some b, none⟩ = (.ok out, s') →
        ((∀ bucket ∈ out.tableBuckets, awsToString bucket.name ≠ b) →
          (checkTableBucketExists cl s b).1 = (false, "", none))
        ∧ (∀ bucket,
            out.tableBuckets.find? (fun x => awsToString x.name == b) = some bucket →
            (checkTableBucketExists cl s b).1 = (true, awsToString bucket.arn, none))) := by
  constructor
  · unfold checkTableBucketExists
    rcases hh : cl.ListTableBuckets s ⟨some b, none⟩ with ⟨r, s'⟩
    cases r with
    | error e => simp [hh]
    | ok out =>
      simp only [hh]
      rcases hf : out.tableBuckets.find? (fun bucket => awsToString bucket.name == b) with
        _ | bucket <;> simp [hf]
  · intro out s' hh
    constructor
    · intro habs
      have hf : out.tableBuckets.find? (fun x => awsToString x.name == b) = none := by
        rw [List.find?_eq_none]
        intro x hx
        simpa using habs x hx
      unfold checkTableBucketExists
      simp [hh, hf]
    · intro bucket hf
      unfold checkTableBucketExists
      simp [hh, hf]

/-- C6 witness: against a listing that returns the proper extension
"foobar" before "foo", querying "foo" finds the exact match and returns
its ARN, while querying "fo" (matched only as a proper prefix of both)
reports absence with an empty ref. -/
theorem checkTableBucketExists_exact_scan_witness :
    (checkTableBucketExists c6Client () "foo").1 = (true, "arn-foo", none)
    ∧ (checkTableBucketExists c6Client () "fo").1 = (false, "", none) := by
  constructor
  · exact ((checkTableBucketExists_exact_scan c6Client () "foo").2 _ () rfl).2
      ⟨some "foo", some "arn-foo", none⟩ (by decide)
  · exact ((checkTableBucketExists_exact_scan c6Client () "fo").2 _ () rfl).1 (by decide)

/-- C7: for the namespace-level and table-level existence checks, a
NotFound error kind from the direct get lookup yields `exists=false` with
no error, while any other error kind is propagated (wrapped with the
operation name) alongside `exists=false`. -/
theorem checkExists_notFound_translated {σ : Type} (cl : S3TablesAPI σ) (s : σ)
    (arn ns tbl : String) :
    (∀ e s', cl.GetNamespace s ⟨arn, ns⟩ = (.error e, s') →
      (isNotFoundError e = true → (checkNamespaceExists cl s arn ns).1 = (false, none))
      ∧ (isNotFoundError e = false →
          (checkNamespaceExists cl s arn ns).1 = (false, some (wrapError "GetNamespace" e))))
    ∧ (∀ e s', cl.GetTable s ⟨arn, ns, tbl⟩ = (.error e, s') →
      (isNotFoundError e = true → (checkTableExists cl s arn ns tbl).1 = (false, "", none))
      ∧ (isNotFoundError e = false →
          (checkTableExists cl s arn ns tbl).1 =
            (false, "", some (wrapError "GetTable" e)))) := by
  constructor
  · intro e s' hh
    constructor <;> intro hnf <;> unfold checkNamespaceExists <;> simp [hh, hnf]
  · intro e s' hh
    constructor <;> intro hnf <;> unfold checkTableExists <;> simp [hh, hnf]

/-- C7 witness: a typed NotFoundException on GetNamespace and a smithy
"NotFoundException" code on GetTable both become negative existence
results without error; Forbidden/BadRequest lookups propagate as wrapped
errors. -/
theorem checkExists_notFound_translated_witness :
    (checkNamespaceExists c7aClient () "a" "n").1 = (false, none)
    ∧ (checkTableExists c7aClient () "a" "n" "t").1 = (false, "", none)
    ∧ (checkNamespaceExists c7bClient () "a" "n").1 =
        (false, some (wrapError "GetNamespace" .forbiddenException))
    ∧ (checkTableExists c7bClient () "a" "n" "t").1 =
        (false, "", some (wrapError "GetTable" .badRequestException)) :=
  ⟨((checkExists_notFound_translated c7aClient () "a" "n" "t").1 _ () rfl).1 (by decide),
   ((checkExists_notFound_translated c7aClient () "a" "n" "t").2 _ () rfl).1 (by decide),
   ((checkExists_notFound_translated c7bClient () "a" "n" "t").1 _ () rfl).2 (by decide),
   ((checkExists_notFound_translated c7bClient () "a" "n" "t").2 _ () rfl).2 (by decide)⟩

/-- C10: the bucket-level existence check issues exactly one
`ListTableBuckets` call, with no continuation token, and never follows the
response's continuation token; hence if the listing is paginated and the
exact match appears only on a later page (the first page carries a
non-empty continuation token but no exact match), the check reports
`exists=false` with an empty ref. -/
theorem checkTableBucketExists_single_call {σ : Type} (cl : S3TablesAPI σ) (s : σ)
    (b : String) :
    (checkTableBucketExists cl s b).2.2 = [RemoteCall.listTableBuckets (some b) none]
    ∧ (∀ out s' tok, cl.ListTableBuckets s ⟨some b, none⟩ = (.ok out, s') →
        out.continuationToken = some tok → tok ≠ "" →
        (∀ bucket ∈ out.tableBuckets, awsToString bucket.name ≠ b) →
        (checkTableBucketExists cl s b).1 = (false, "", none)) := by
  constructor
  · unfold checkTableBucketExists
    rcases hh : cl.ListTableBuckets s ⟨some b, none⟩ with ⟨r, s'⟩
    cases r with
    | error e => simp [hh]
    | ok out =>
      simp only [hh]
      rcases hf : out.tableBuckets.find? (fun bucket => awsToString bucket.name == b) with
        _ | bucket <;> simp [hf]
  · intro out s' tok hh _ _ habs
    have hf : out.tableBuckets.find? (fun x => awsToString x.name == b) = none := by
      rw [List.find?_eq_none]
      intro x hx
      simpa using habs x hx
    unfold checkTableBucketExists
    simp [hh, hf]

/-- C10 witness: against a remote whose first page lists only "bb" with
continuation token "tok2" and whose second page holds the exact match "b",
the check issues its single token-less call and reports absence. -/
theorem checkTableBucketExists_single_call_witness :
    (checkTableBucketExists c10Client 0 "b").2.2 =
      [RemoteCall.listTableBuckets (some "b") none]
    ∧ (checkTableBucketExists c10Client 0 "b").1 = (false, "", none) :=
  ⟨(checkTableBucketExists_single_call c10Client 0 "b").1,
   (checkTableBucketExists_single_call c10Client 0 "b").2 _ 1 "tok2" rfl rfl
     (by decide) (by decide)⟩


/-- Step 1 of `Create`: its remote trace is an in-order selection from
`[ListTableBuckets, CreateTableBucket]`, and on error the trace ends at the
failing call, whose operation name the returned error wraps. -/
theorem ensureTableBucket_trace {σ : Type} (cl : S3TablesAPI σ) (s : σ) (b : String)
    (r0 : CreateResult) :
    (((ensureTableBucket cl s b r0).2.2.2).map RemoteCall.kind).Sublist
      [CallKind.listTableBuckets, CallKind.createTableBucket]
    ∧ (∀ er, (ensureTableBucket cl s b r0).1.2 = some er →
        ∃ pre c e, (ensureTableBucket cl s b r0).2.2.2 = pre ++ [c]
          ∧ er = wrapError (opNameOf c.kind) e) := by
  unfold ensureTableBucket checkTableBucketExists
  rcases h1 : cl.ListTableBuckets s ⟨some b, none⟩ with ⟨r, s'⟩
  cases r with
  | error e =>
    refine ⟨by simp [h1, RemoteCall.kind], ?_⟩
    intro er her
    simp only [h1] at her ⊢
    simp at her
    exact ⟨[], RemoteCall.listTableBuckets (some b) none, e, by simp, her.symm⟩
  | ok out =>
    rcases hf : out.tableBuckets.find? (fun bucket => awsToString bucket.name == b) with
      _ | bucket
    · rcases h2 : cl.CreateTableBucket s' ⟨b⟩ with ⟨r2, s''⟩
      cases r2 with
      | error e2 =>
        refine ⟨by simp [h1, hf, h2, RemoteCall.kind], ?_⟩
        intro er her
        simp only [h1, hf, h2] at her ⊢
        simp at her
        exact ⟨[RemoteCall.listTableBuckets (some b) none], RemoteCall.createTableBucket b, e2,
          by simp, her.symm⟩
      | ok out2 =>
        refine ⟨by simp [h1, hf, h2, RemoteCall.kind], ?_⟩
        intro er her
        simp only [h1, hf, h2] at her
        simp at her
    · refine ⟨by simp [h1, hf, RemoteCall.kind], ?_⟩
      intro er her
      simp only [h1, hf] at her
      simp at her


/-- Step 2 of `Create`: trace selection from `[GetNamespace, CreateNamespace]`
and end-at-failure behaviour. -/
theorem ensureNamespace_trace {σ : Type} (cl : S3TablesAPI σ) (s : σ) (arn ns : String)
    (r0 : CreateResult) :
    (((ensureNamespace cl s arn ns r0).2.2.2).map RemoteCall.kind).Sublist
      [CallKind.getNamespace, CallKind.createNamespace]
    ∧ (∀ er, (ensureNamespace cl s arn ns r0).1 = some er →
        ∃ pre c e, (ensureNamespace cl s arn ns r0).2.2.2 = pre ++ [c]
          ∧ er = wrapError (opNameOf c.kind) e) := by
  unfold ensureNamespace checkNamespaceExists
  rcases h1 : cl.GetNamespace s ⟨arn, ns⟩ with ⟨r, s'⟩
  cases r with
  | error e =>
    rcases hnf : isNotFoundError e with _ | _
    · refine ⟨by simp [h1, hnf, RemoteCall.kind], ?_⟩
      intro er her
      simp [h1, hnf] at her
      refine ⟨[], RemoteCall.getNamespace arn ns, e, by simp [h1, hnf], ?_⟩
      simpa [opNameOf, RemoteCall.kind] using her.symm
    · rcases h2 : cl.CreateNamespace s' ⟨arn, [ns]⟩ with ⟨r2, s''⟩
      cases r2 with
      | error e2 =>
        refine ⟨by simp [h1, hnf, h2, RemoteCall.kind], ?_⟩
        intro er her
        simp [h1, hnf, h2] at her
        refine ⟨[RemoteCall.getNamespace arn ns], RemoteCall.createNamespace arn [ns], e2,
          by simp [h1, hnf, h2], ?_⟩
        simpa [opNameOf, RemoteCall.kind] using her.symm
      | ok u =>
        refine ⟨by simp [h1, hnf, h2, RemoteCall.kind], ?_⟩
        intro er her
        simp [h1, hnf, h2] at her
  | ok u =>
    refine ⟨by simp [h1, RemoteCall.kind], ?_⟩
    intro er her
    simp [h1] at her


/-- Step 3 of `Create`: trace selection from `[GetTable, CreateTable]` and
end-at-failure behaviour. -/
theorem ensureTable_trace {σ : Type} (cl : S3TablesAPI σ) (s : σ) (arn ns tbl : String)
    (r0 : CreateResult) :
    (((ensureTable cl s arn ns tbl r0).2.2.2).map RemoteCall.kind).Sublist
      [CallKind.getTable, CallKind.createTable]
    ∧ (∀ er, (ensureTable cl s arn ns tbl r0).1 = some er →
        ∃ pre c e, (ensureTable cl s arn ns tbl r0).2.2.2 = pre ++ [c]
          ∧ er = wrapError (opNameOf c.kind) e) := by
  unfold ensureTable checkTableExists
  rcases h1 : cl.GetTable s ⟨arn, ns, tbl⟩ with ⟨r, s'⟩
  cases r with
  | error e =>
    rcases hnf : isNotFoundError e with _ | _
    · refine ⟨by simp [h1, hnf, RemoteCall.kind], ?_⟩
      intro er her
      simp [h1, hnf] at her
      refine ⟨[], RemoteCall.getTable arn ns tbl, e, by simp [h1, hnf], ?_⟩
      simpa [opNameOf, RemoteCall.kind] using her.symm
    · rcases h2 : cl.CreateTable s' ⟨arn, ns, tbl, openTableFormatIceberg⟩ with ⟨r2, s''⟩
      cases r2 with
      | error e2 =>
        refine ⟨by simp [h1, hnf, h2, RemoteCall.kind], ?_⟩
        intro er her
        simp [h1, hnf, h2] at her
        refine ⟨[RemoteCall.getTable arn ns tbl],
          RemoteCall.createTable arn ns tbl openTableFormatIceberg, e2,
          by simp [h1, hnf, h2], ?_⟩
        simpa [opNameOf, RemoteCall.kind] using her.symm
      | ok out2 =>
        refine ⟨by simp [h1, hnf, h2, RemoteCall.kind], ?_⟩
        intro er her
        simp [h1, hnf, h2] at her
  | ok out =>
    refine ⟨by simp [h1, RemoteCall.kind], ?_⟩
    intro er her
    simp [h1] at her


/-- C1: for every client (hence every combination of remote check/create
failures), the operations of the remote calls issued by one `Create`
invocation form an in-order selection from
`[ListTableBuckets, CreateTableBucket, GetNamespace, CreateNamespace,
GetTable, CreateTable]` (a prefix of that list with a create skipped when
its check reported existence), and when `Create` returns an error the
trace ends exactly at the failing call, whose operation name the returned
error wraps: no remote call is issued after the failure. -/
theorem create_call_order_short_circuit {σ : Type} (cl : S3TablesAPI σ) (s : σ)
    (b ns tbl : String) :
    (((Create cl s b ns tbl).2.2).map RemoteCall.kind).Sublist createCanonicalKinds
    ∧ (∀ er, (Create cl s b ns tbl).1.2 = some er →
        ∃ pre c e, (Create cl s b ns tbl).2.2 = pre ++ [c]
          ∧ er = wrapError (opNameOf c.kind) e) := by
  obtain ⟨ht1, he1⟩ := ensureTableBucket_trace cl s b ⟨"", "", [], false, false, false⟩
  rcases h1 : ensureTableBucket cl s b ⟨"", "", [], false, false, false⟩ with
    ⟨⟨arn, err1⟩, r1, s1, tr1⟩
  rw [h1] at ht1 he1
  cases err1 with
  | some er1 =>
    simp only [Create, h1]
    refine ⟨ht1.trans (by decide), ?_⟩
    intro er her
    have her' : er1 = er := by simpa using her
    subst her'
    obtain ⟨pre, c, e, htr, heq⟩ := he1 er1 rfl
    exact ⟨pre, c, e, htr, heq⟩
  | none =>
    obtain ⟨ht2, he2⟩ := ensureNamespace_trace cl s1 arn ns r1
    rcases h2 : ensureNamespace cl s1 arn ns r1 with ⟨err2, r2, s2, tr2⟩
    rw [h2] at ht2 he2
    cases err2 with
    | some er2 =>
      simp only [Create, h1, h2]
      constructor
      · have hcomp : (List.map RemoteCall.kind tr1 ++ List.map RemoteCall.kind tr2).Sublist
            ([CallKind.listTableBuckets, CallKind.createTableBucket] ++
              [CallKind.getNamespace, CallKind.createNamespace, CallKind.getTable,
                CallKind.createTable]) :=
          ht1.append (ht2.trans (by decide))
        simpa using hcomp
      · intro er her
        have her' : er2 = er := by simpa using her
        subst her'
        obtain ⟨pre, c, e, htr, heq⟩ := he2 er2 rfl
        have htr' : tr2 = pre ++ [c] := htr
        exact ⟨tr1 ++ pre, c, e, by simp [htr'], heq⟩
    | none =>
      obtain ⟨ht3, he3⟩ := ensureTable_trace cl s2 arn ns tbl r2
      rcases h3 : ensureTable cl s2 arn ns tbl r2 with ⟨err3, r3, s3, tr3⟩
      rw [h3] at ht3 he3
      cases err3 with
      | some er3 =>
        simp only [Create, h1, h2, h3]
        constructor
        · have hcomp : ((List.map RemoteCall.kind tr1 ++ List.map RemoteCall.kind tr2) ++
              List.map RemoteCall.kind tr3).Sublist
              (([CallKind.listTableBuckets, CallKind.createTableBucket] ++
                [CallKind.getNamespace, CallKind.createNamespace]) ++
                [CallKind.getTable, CallKind.createTable]) :=
            (ht1.append (ht2.trans (by decide))).append ht3
          simpa using hcomp
        · intro er her
          have her' : er3 = er := by simpa using her
          subst her'
          obtain ⟨pre, c, e, htr, heq⟩ := he3 er3 rfl
          have htr' : tr3 = pre ++ [c] := htr
          exact ⟨(tr1 ++ tr2) ++ pre, c, e, by simp [htr'], heq⟩
      | none =>
        simp only [Create, h1, h2, h3]
        constructor
        · have hcomp : ((List.map RemoteCall.kind tr1 ++ List.map RemoteCall.kind tr2) ++
              List.map RemoteCall.kind tr3).Sublist
              (([CallKind.listTableBuckets, CallKind.createTableBucket] ++
                [CallKind.getNamespace, CallKind.createNamespace]) ++
                [CallKind.getTable, CallKind.createTable]) :=
            (ht1.append (ht2.trans (by decide))).append ht3
          simpa using hcomp
        · intro er her
          simp at her

/-- C1 witness: with bucket and namespace absent, bucket creation
succeeding and namespace creation failing with Conflict, the trace is an
in-order selection of the canonical sequence ending at the failing
`CreateNamespace` call, and the returned error wraps that operation. -/
theorem create_call_order_short_circuit_witness :
    (((Create failNsCreateClient () "b" "n" "t").2.2).map RemoteCall.kind).Sublist
      createCanonicalKinds
    ∧ ∃ pre c e, (Create failNsCreateClient () "b" "n" "t").2.2 = pre ++ [c]
        ∧ wrapError "CreateNamespace" AwsError.conflictException = wrapError (opNameOf c.kind) e :=
  ⟨(create_call_order_short_circuit failNsCreateClient () "b" "n" "t").1,
   (create_call_order_short_circuit failNsCreateClient () "b" "n" "t").2
     (wrapError "CreateNamespace" .conflictException) rfl⟩

/-- C2: for all 8 combinations of prior existence of (bucket, namespace,
table), `Create` succeeds and each `*Created` flag is the negation of that
level's prior existence; moreover the create call for a level occurs in
the remote trace exactly once when its flag is true and not at all when it
is false. -/
theorem create_flags_match_existence (b ns t : String) (env : ExistenceEnv) :
    ∃ r, (Create (envClient b ns t env) () b ns t).1 = (some r, none)
      ∧ r.tableBucketCreated = !env.bucketExists
      ∧ r.namespaceCreated = !env.nsExists
      ∧ r.tableCreated = !env.tblExists
      ∧ (((Create (envClient b ns t env) () b ns t).2.2).map RemoteCall.kind).count
          CallKind.createTableBucket = (if r.tableBucketCreated then 1 else 0)
      ∧ (((Create (envClient b ns t env) () b ns t).2.2).map RemoteCall.kind).count
          CallKind.createNamespace = (if r.namespaceCreated then 1 else 0)
      ∧ (((Create (envClient b ns t env) () b ns t).2.2).map RemoteCall.kind).count
          CallKind.createTable = (if r.tableCreated then 1 else 0) := by
  obtain ⟨be, ne, te, a1, a2, a3, a4⟩ := env
  cases be <;> cases ne <;> cases te <;>
    simp [Create, ensureTableBucket, ensureNamespace, ensureTable,
      checkTableBucketExists, checkNamespaceExists, checkTableExists,
      envClient, awsToString, isNotFoundError, RemoteCall.kind]

/-- Scanning the fake service's prefix-filtered page for an exact match is
the same as scanning the full bucket table. -/
theorem find?_bucketsPage (l : List (String × String)) (b : String) :
    (bucketsPage l (some b)).find? (fun bucket => bucket.name.getD "" == b)
      = (l.find? (fun bn => bn.1 == b)).map
          (fun bn => (⟨some bn.1, some bn.2, none⟩ : TableBucketSummary)) := by
  induction l with
  | nil => simp [bucketsPage]
  | cons hd tl ih =>
    by_cases hname : hd.1 = b
    · have hpfx : b.data <+: hd.1.data := by simp [hname]
      simp [bucketsPage, List.filter_cons, awsToString, hname, hpfx,
        List.isPrefixOf_iff_prefix]
    · by_cases hpfx : b.data <+: hd.1.data
      · simpa [bucketsPage, List.filter_cons, awsToString, hname, hpfx,
          List.isPrefixOf_iff_prefix, List.find?_map, Function.comp] using ih
      · simpa [bucketsPage, List.filter_cons, awsToString, hname, hpfx,
          List.isPrefixOf_iff_prefix, List.find?_map, Function.comp] using ih

/-- Behaviour of `ensureTableBucket` against the fake service. -/
theorem svc_ensureTableBucket_eq (svc : Service) (b : String) (r0 : CreateResult) :
    ensureTableBucket svcClient svc b r0 =
      match svc.buckets.find? (fun x => x.1 == b) with
      | some bn =>
        ((bn.2, none),
          { r0 with
              tableBucketARN := bn.2
              messages := r0.messages ++ ["Table Bucket '" ++ b ++ "' already exists"] },
          svc, [RemoteCall.listTableBuckets (some b) none])
      | none =>
        ((mkBucketArn b, none),
          { r0 with
              tableBucketCreated := true
              tableBucketARN := mkBucketArn b
              messages := r0.messages ++ ["Table Bucket '" ++ b ++ "' created"] },
          { svc with buckets := svc.buckets ++ [(b, mkBucketArn b)] },
          [RemoteCall.listTableBuckets (some b) none, RemoteCall.createTableBucket b]) := by
  rcases hb : svc.buckets.find? (fun x => x.1 == b) with _ | bn <;>
    simp [ensureTableBucket, checkTableBucketExists, svcClient, find?_bucketsPage, hb, awsToString]

/-- Behaviour of `ensureNamespace` against the fake service. -/
theorem svc_ensureNamespace_eq (svc : Service) (arn ns : String) (r0 : CreateResult) :
    ensureNamespace svcClient svc arn ns r0 =
      (if svc.namespaces.contains (arn, ns) then
        (none,
          { r0 with messages := r0.messages ++ ["Namespace '" ++ ns ++ "' already exists"] },
          svc, [RemoteCall.getNamespace arn ns])
      else
        (none,
          { r0 with
              namespaceCreated := true
              messages := r0.messages ++ ["Namespace '" ++ ns ++ "' created"] },
          { svc with namespaces := svc.namespaces ++ [(arn, ns)] },
          [RemoteCall.getNamespace arn ns, RemoteCall.createNamespace arn [ns]])) := by
  by_cases hn : (arn, ns) ∈ svc.namespaces <;>
    simp [ensureNamespace, checkNamespaceExists, svcClient, hn, isNotFoundError]

/-- Behaviour of `ensureTable` against the fake service. -/
theorem svc_ensureTable_eq (svc : Service) (arn ns t : String) (r0 : CreateResult) :
    ensureTable svcClient svc arn ns t r0 =
      match svc.tables.find? (fun kv => kv.1 == (arn, ns, t)) with
      | some kv =>
        (none,
          { r0 with
              tableARN := kv.2
              messages := r0.messages ++ ["Table '" ++ t ++ "' already exists"] },
          svc, [RemoteCall.getTable arn ns t])
      | none =>
        (none,
          { r0 with
              tableCreated := true
              tableARN := mkTableArn arn ns t
              messages := r0.messages ++ ["Table '" ++ t ++ "' created"] },
          { svc with tables := svc.tables ++ [((arn, ns, t), mkTableArn arn ns t)] },
          [RemoteCall.getTable arn ns t,
            RemoteCall.createTable arn ns t openTableFormatIceberg]) := by
  rcases ht : svc.tables.find? (fun kv => kv.1 == (arn, ns, t)) with _ | kv <;>
    simp [ensureTable, checkTableExists, svcClient, ht, isNotFoundError, awsToString]

/-- One `Create` run against the fake service always succeeds; its result
fields are determined by the initial state, and afterwards all three
resources exist with the ARNs the run reported. -/
theorem svcCreate_run (svc : Service) (b ns t : String) :
    ∃ r svc' tr,
      Create svcClient svc b ns t = ((some r, none), svc', tr)
      ∧ r.tableBucketARN = (svc.bucketEntry b).2
      ∧ r.tableARN = svc.tableRefAt (svc.bucketEntry b).2 ns t
      ∧ r.tableBucketCreated = (svc.buckets.find? (fun x => x.1 == b)).isNone
      ∧ r.namespaceCreated = !(decide (((svc.bucketEntry b).2, ns) ∈ svc.namespaces))
      ∧ r.tableCreated =
          (svc.tables.find? (fun kv => kv.1 == ((svc.bucketEntry b).2, ns, t))).isNone
      ∧ svc'.buckets.find? (fun x => x.1 == b) = some (svc.bucketEntry b)
      ∧ (((svc.bucketEntry b).2, ns) ∈ svc'.namespaces)
      ∧ svc'.tables.find? (fun kv => kv.1 == ((svc.bucketEntry b).2, ns, t))
          = some (((svc.bucketEntry b).2, ns, t), r.tableARN) := by
  rcases hb : svc.buckets.find? (fun x => x.1 == b) with _ | bn
  · by_cases hn : ((mkBucketArn b, ns) : String × String) ∈ svc.namespaces
    · rcases htb : svc.tables.find? (fun kv => kv.1 == (mkBucketArn b, ns, t)) with _ | kv
      · simp only [Create, svc_ensureTableBucket_eq, hb, svc_ensureNamespace_eq,
          svc_ensureTable_eq]
        simp [hn, htb, Service.bucketEntry, Service.tableRefAt, hb]
        refine ⟨_, _, ⟨rfl, rfl⟩, rfl, rfl, rfl, rfl, rfl, ?_, ?_, ?_⟩
        · simp [List.find?_append, hb]
        · simpa using hn
        · simp [List.find?_append, htb]
      · have hkey : kv.1 = (mkBucketArn b, ns, t) := by
          have := List.find?_some htb
          simpa using this
        simp only [Create, svc_ensureTableBucket_eq, hb, svc_ensureNamespace_eq,
          svc_ensureTable_eq]
        simp [hn, htb, Service.bucketEntry, Service.tableRefAt, hb, hkey]
        refine ⟨_, _, ⟨rfl, rfl⟩, rfl, rfl, rfl, rfl, rfl, ?_, ?_, ?_⟩
        · simp [List.find?_append, hb]
        · simpa using hn
        · rw [htb, ← hkey]
    · rcases htb : svc.tables.find? (fun kv => kv.1 == (mkBucketArn b, ns, t)) with _ | kv
      · simp only [Create, svc_ensureTableBucket_eq, hb, svc_ensureNamespace_eq,
          svc_ensureTable_eq]
        simp [hn, htb, Service.bucketEntry, Service.tableRefAt, hb]
        refine ⟨_, _, ⟨rfl, rfl⟩, rfl, rfl, rfl, rfl, rfl, ?_, ?_, ?_⟩
        · simp [List.find?_append, hb]
        · simp
        · simp [List.find?_append, htb]
      · have hkey : kv.1 = (mkBucketArn b, ns, t) := by
          have := List.find?_some htb
          simpa using this
        simp only [Create, svc_ensureTableBucket_eq, hb, svc_ensureNamespace_eq,
          svc_ensureTable_eq]
        simp [hn, htb, Service.bucketEntry, Service.tableRefAt, hb, hkey]
        refine ⟨_, _, ⟨rfl, rfl⟩, rfl, rfl, rfl, rfl, rfl, ?_, ?_, ?_⟩
        · simp [List.find?_append, hb]
        · simp
        · rw [htb, ← hkey]
  · by_cases hn : ((bn.2, ns) : String × String) ∈ svc.namespaces
    · rcases htb : svc.tables.find? (fun kv => kv.1 == (bn.2, ns, t)) with _ | kv
      · simp only [Create, svc_ensureTableBucket_eq, hb, svc_ensureNamespace_eq,
          svc_ensureTable_eq]
        simp [hn, htb, Service.bucketEntry, Service.tableRefAt, hb]
        refine ⟨_, _, ⟨rfl, rfl⟩, rfl, rfl, rfl, rfl, rfl, ?_, ?_, ?_⟩
        · simpa using hb
        · simpa using hn
        · simp [List.find?_append, htb]
      · have hkey : kv.1 = (bn.2, ns, t) := by
          have := List.find?_some htb
          simpa using this
        simp only [Create, svc_ensureTableBucket_eq, hb, svc_ensureNamespace_eq,
          svc_ensureTable_eq]
        simp [hn, htb, Service.bucketEntry, Service.tableRefAt, hb, hkey]
        refine ⟨_, _, ⟨rfl, rfl⟩, rfl, rfl, rfl, rfl, rfl, ?_, ?_, ?_⟩
        · simpa using hb
        · simpa using hn
        · rw [htb, ← hkey]
    · rcases htb : svc.tables.find? (fun kv => kv.1 == (bn.2, ns, t)) with _ | kv
      · simp only [Create, svc_ensureTableBucket_eq, hb, svc_ensureNamespace_eq,
          svc_ensureTable_eq]
        simp [hn, htb, Service.bucketEntry, Service.tableRefAt, hb]
        refine ⟨_, _, ⟨rfl, rfl⟩, rfl, rfl, rfl, rfl, rfl, ?_, ?_, ?_⟩
        · simpa using hb
        · simp
        · simp [List.find?_append, htb]
      · have hkey : kv.1 = (bn.2, ns, t) := by
          have := List.find?_some htb
          simpa using this
        simp only [Create, svc_ensureTableBucket_eq, hb, svc_ensureNamespace_eq,
          svc_ensureTable_eq]
        simp [hn, htb, Service.bucketEntry, Service.tableRefAt, hb, hkey]
        refine ⟨_, _, ⟨rfl, rfl⟩, rfl, rfl, rfl, rfl, rfl, ?_, ?_, ?_⟩
        · simpa using hb
        · simp
        · rw [htb, ← hkey]

/-- C3: running `Create` twice in sequence against a remote service whose
state changes only through those calls yields, on the second invocation,
`TableBucketCreated=false`, `NamespaceCreated=false`, `TableCreated=false`,
and both invocations return the same `TableBucketARN` and `TableARN`. -/
theorem create_idempotent (svc : Service) (b ns t : String) :
    ∃ r1 r2 svc1 svc2 tr1 tr2,
      Create svcClient svc b ns t = ((some r1, none), svc1, tr1)
      ∧ Create svcClient svc1 b ns t = ((some r2, none), svc2, tr2)
      ∧ r2.tableBucketCreated = false
      ∧ r2.namespaceCreated = false
      ∧ r2.tableCreated = false
      ∧ r2.tableBucketARN = r1.tableBucketARN
      ∧ r2.tableARN = r1.tableARN := by
  obtain ⟨r1, svc1, tr1, hC1, hA1, hT1, f1, f2, f3, hB1, hN1, hTb1⟩ := svcCreate_run svc b ns t
  obtain ⟨r2, svc2, tr2, hC2, hA2, hT2, hF1, hF2, hF3, hB2, hN2, hTb2⟩ :=
    svcCreate_run svc1 b ns t
  have hbe : svc1.bucketEntry b = svc.bucketEntry b := by
    simp [Service.bucketEntry, hB1]
  refine ⟨r1, r2, svc1, svc2, tr1, tr2, hC1, hC2, ?_, ?_, ?_, ?_, ?_⟩
  · simp [hF1, hB1]
  · simp [hF2, hbe, hN1]
  · simp [hF3, hbe, hTb1]
  · rw [hA2, hbe, hA1]
  · rw [hT2, hbe]
    simp [Service.tableRefAt, hTb1]

/-- Draining a bucket page script: the loop returns the accumulator plus
the concatenation of all pages, echoing each continuation token. -/
theorem scriptBuckets_ok (pages : List (List TableBucketSummary)) :
    ∀ fuel tok acc, pages.length < fuel →
      ∃ tr, ListTableBucketsAllGo scriptBucketsClient "" fuel (tok, pages.map .ok) acc tok
        = some (.ok (acc ++ pages.flatten.map tableBucketInfoOf), (none, []), tr) := by
  induction pages with
  | nil =>
    intro fuel tok acc hf
    obtain ⟨fuel, rfl⟩ : ∃ f, fuel = f + 1 := ⟨fuel - 1, by omega⟩
    exact ⟨[RemoteCall.listTableBuckets none tok],
      by simp [ListTableBucketsAllGo, scriptBucketsClient]⟩
  | cons p rest ih =>
    intro fuel tok acc hf
    obtain ⟨fuel, rfl⟩ : ∃ f, fuel = f + 1 := ⟨fuel - 1, by omega⟩
    by_cases hr : rest = []
    · subst hr
      exact ⟨[RemoteCall.listTableBuckets none tok],
        by simp [ListTableBucketsAllGo, scriptBucketsClient]⟩
    · have hlen : rest.length < fuel := by simp at hf; omega
      obtain ⟨tr, htr⟩ := ih fuel
        (some (pageToken (rest.map (fun q => (Except.ok q : Except AwsError (List TableBucketSummary))))))
        (acc ++ p.map tableBucketInfoOf) hlen
      refine ⟨RemoteCall.listTableBuckets none tok :: tr, ?_⟩
      simp [ListTableBucketsAllGo, scriptBucketsClient, hr, pageToken, String.ext_iff] at htr ⊢
      simp [htr]

/-- Draining a bucket page script that ends in an error: the loop returns
the wrapped error, discarding every page collected before it. -/
theorem scriptBuckets_err (pages : List (List TableBucketSummary)) (e : AwsError) :
    ∀ fuel tok acc, pages.length < fuel →
      ∃ s' tr, ListTableBucketsAllGo scriptBucketsClient "" fuel
          (tok, pages.map .ok ++ [.error e]) acc tok
        = some (.error (wrapError "ListTableBuckets" e), s', tr) := by
  induction pages with
  | nil =>
    intro fuel tok acc hf
    obtain ⟨fuel, rfl⟩ : ∃ f, fuel = f + 1 := ⟨fuel - 1, by omega⟩
    exact ⟨(tok, []), [RemoteCall.listTableBuckets none tok],
      by simp [ListTableBucketsAllGo, scriptBucketsClient]⟩
  | cons p rest ih =>
    intro fuel tok acc hf
    obtain ⟨fuel, rfl⟩ : ∃ f, fuel = f + 1 := ⟨fuel - 1, by omega⟩
    have hlen : rest.length < fuel := by simp at hf; omega
    obtain ⟨s', tr, htr⟩ := ih fuel
      (some (pageToken (rest.map (fun q => (Except.ok q : Except AwsError (List TableBucketSummary))) ++ [Except.error e])))
      (acc ++ p.map tableBucketInfoOf) hlen
    refine ⟨s', RemoteCall.listTableBuckets none tok :: tr, ?_⟩
    simp [ListTableBucketsAllGo, scriptBucketsClient, pageToken, String.ext_iff] at htr ⊢
    simp [htr]

/-- Namespace analogue of `scriptBuckets_ok`. -/
theorem scriptNamespaces_ok (arn : String) (pages : List (List NamespaceSummary)) :
    ∀ fuel tok acc, pages.length < fuel →
      ∃ tr, ListNamespacesAllGo scriptNamespacesClient arn "" fuel (tok, pages.map .ok) acc tok
        = some (.ok (acc ++ pages.flatten.map namespaceInfoOf), (none, []), tr) := by
  induction pages with
  | nil =>
    intro fuel tok acc hf
    obtain ⟨fuel, rfl⟩ : ∃ f, fuel = f + 1 := ⟨fuel - 1, by omega⟩
    exact ⟨[RemoteCall.listNamespaces arn none tok],
      by simp [ListNamespacesAllGo, scriptNamespacesClient]⟩
  | cons p rest ih =>
    intro fuel tok acc hf
    obtain ⟨fuel, rfl⟩ : ∃ f, fuel = f + 1 := ⟨fuel - 1, by omega⟩
    by_cases hr : rest = []
    · subst hr
      exact ⟨[RemoteCall.listNamespaces arn none tok],
        by simp [ListNamespacesAllGo, scriptNamespacesClient]⟩
    · have hlen : rest.length < fuel := by simp at hf; omega
      obtain ⟨tr, htr⟩ := ih fuel
        (some (pageToken (rest.map (fun q => (Except.ok q : Except AwsError (List NamespaceSummary))))))
        (acc ++ p.map namespaceInfoOf) hlen
      refine ⟨RemoteCall.listNamespaces arn none tok :: tr, ?_⟩
      simp [ListNamespacesAllGo, scriptNamespacesClient, hr, pageToken, String.ext_iff] at htr ⊢
      simp [htr]

/-- Namespace analogue of `scriptBuckets_err`. -/
theorem scriptNamespaces_err (arn : String) (pages : List (List NamespaceSummary)) (e : AwsError) :
    ∀ fuel tok acc, pages.length < fuel →
      ∃ s' tr, ListNamespacesAllGo scriptNamespacesClient arn "" fuel
          (tok, pages.map .ok ++ [.error e]) acc tok
        = some (.error (wrapError "ListNamespaces" e), s', tr) := by
  induction pages with
  | nil =>
    intro fuel tok acc hf
    obtain ⟨fuel, rfl⟩ : ∃ f, fuel = f + 1 := ⟨fuel - 1, by omega⟩
    exact ⟨(tok, []), [RemoteCall.listNamespaces arn none tok],
      by simp [ListNamespacesAllGo, scriptNamespacesClient]⟩
  | cons p rest ih =>
    intro fuel tok acc hf
    obtain ⟨fuel, rfl⟩ : ∃ f, fuel = f + 1 := ⟨fuel - 1, by omega⟩
    have hlen : rest.length < fuel := by simp at hf; omega
    obtain ⟨s', tr, htr⟩ := ih fuel
      (some (pageToken (rest.map (fun q => (Except.ok q : Except AwsError (List NamespaceSummary))) ++ [Except.error e])))
      (acc ++ p.map namespaceInfoOf) hlen
    refine ⟨s', RemoteCall.listNamespaces arn none tok :: tr, ?_⟩
    simp [ListNamespacesAllGo, scriptNamespacesClient, pageToken, String.ext_iff] at htr ⊢
    simp [htr]

/-- Table analogue of `scriptBuckets_ok`. -/
theorem scriptTables_ok (arn ns : String) (pages : List (List TableSummary)) :
    ∀ fuel tok acc, pages.length < fuel →
      ∃ tr, ListTablesAllGo scriptTablesClient arn ns "" fuel (tok, pages.map .ok) acc tok
        = some (.ok (acc ++ pages.flatten.map tableInfoOf), (none, []), tr) := by
  induction pages with
  | nil =>
    intro fuel tok acc hf
    obtain ⟨fuel, rfl⟩ : ∃ f, fuel = f + 1 := ⟨fuel - 1, by omega⟩
    exact ⟨[RemoteCall.listTables arn ns none tok],
      by simp [ListTablesAllGo, scriptTablesClient]⟩
  | cons p rest ih =>
    intro fuel tok acc hf
    obtain ⟨fuel, rfl⟩ : ∃ f, fuel = f + 1 := ⟨fuel - 1, by omega⟩
    by_cases hr : rest = []
    · subst hr
      exact ⟨[RemoteCall.listTables arn ns none tok],
        by simp [ListTablesAllGo, scriptTablesClient]⟩
    · have hlen : rest.length < fuel := by simp at hf; omega
      obtain ⟨tr, htr⟩ := ih fuel
        (some (pageToken (rest.map (fun q => (Except.ok q : Except AwsError (List TableSummary))))))
        (acc ++ p.map tableInfoOf) hlen
      refine ⟨RemoteCall.listTables arn ns none tok :: tr, ?_⟩
      simp [ListTablesAllGo, scriptTablesClient, hr, pageToken, String.ext_iff] at htr ⊢
      simp [htr]

/-- Table analogue of `scriptBuckets_err`. -/
theorem scriptTables_err (arn ns : String) (pages : List (List TableSummary)) (e : AwsError) :
    ∀ fuel tok acc, pages.length < fuel →
      ∃ s' tr, ListTablesAllGo scriptTablesClient arn ns "" fuel
          (tok, pages.map .ok ++ [.error e]) acc tok
        = some (.error (wrapError "ListTables" e), s', tr) := by
  induction pages with
  | nil =>
    intro fuel tok acc hf
    obtain ⟨fuel, rfl⟩ : ∃ f, fuel = f + 1 := ⟨fuel - 1, by omega⟩
    exact ⟨(tok, []), [RemoteCall.listTables arn ns none tok],
      by simp [ListTablesAllGo, scriptTablesClient]⟩
  | cons p rest ih =>
    intro fuel tok acc hf
    obtain ⟨fuel, rfl⟩ : ∃ f, fuel = f + 1 := ⟨fuel - 1, by omega⟩
    have hlen : rest.length < fuel := by simp at hf; omega
    obtain ⟨s', tr, htr⟩ := ih fuel
      (some (pageToken (rest.map (fun q => (Except.ok q : Except AwsError (List TableSummary))) ++ [Except.error e])))
      (acc ++ p.map tableInfoOf) hlen
    refine ⟨s', RemoteCall.listTables arn ns none tok :: tr, ?_⟩
    simp [ListTablesAllGo, scriptTablesClient, pageToken, String.ext_iff] at htr ⊢
    simp [htr]

/-- C4: for every split of the items into pages linked by continuation
tokens (hence every N ≥ 0 and page size P ≥ 1), the three aggregation
operations return exactly the concatenation of the pages in order,
stopping when the token is absent or empty. -/
theorem listAll_pagination_complete :
    (∀ (pages : List (List TableBucketSummary)) (fuel : Nat), pages.length < fuel →
      ∃ tr, ListTableBucketsAll scriptBucketsClient fuel (none, pages.map .ok) ""
        = some (.ok (pages.flatten.map tableBucketInfoOf), (none, []), tr))
    ∧ (∀ (arn : String) (pages : List (List NamespaceSummary)) (fuel : Nat),
        pages.length < fuel →
      ∃ tr, ListNamespacesAll scriptNamespacesClient fuel (none, pages.map .ok) arn ""
        = some (.ok (pages.flatten.map namespaceInfoOf), (none, []), tr))
    ∧ (∀ (arn ns : String) (pages : List (List TableSummary)) (fuel : Nat),
        pages.length < fuel →
      ∃ tr, ListTablesAll scriptTablesClient fuel (none, pages.map .ok) arn ns ""
        = some (.ok (pages.flatten.map tableInfoOf), (none, []), tr)) := by
  refine ⟨?_, ?_, ?_⟩
  · intro pages fuel hf
    simpa [ListTableBucketsAll] using scriptBuckets_ok pages fuel none [] hf
  · intro arn pages fuel hf
    simpa [ListNamespacesAll] using scriptNamespaces_ok arn pages fuel none [] hf
  · intro arn ns pages fuel hf
    simpa [ListTablesAll] using scriptTables_ok arn ns pages fuel none [] hf

/-- C5: if any page-listing call fails, the aggregation returns that
wrapped error and no items; pages collected before the failure are
discarded. -/
theorem listAll_error_discards_pages :
    (∀ (pages : List (List TableBucketSummary)) (e : AwsError) (fuel : Nat),
        pages.length < fuel →
      ∃ s' tr, ListTableBucketsAll scriptBucketsClient fuel
          (none, pages.map .ok ++ [.error e]) ""
        = some (.error (wrapError "ListTableBuckets" e), s', tr))
    ∧ (∀ (arn : String) (pages : List (List NamespaceSummary)) (e : AwsError) (fuel : Nat),
        pages.length < fuel →
      ∃ s' tr, ListNamespacesAll scriptNamespacesClient fuel
          (none, pages.map .ok ++ [.error e]) arn ""
        = some (.error (wrapError "ListNamespaces" e), s', tr))
    ∧ (∀ (arn ns : String) (pages : List (List TableSummary)) (e : AwsError) (fuel : Nat),
        pages.length < fuel →
      ∃ s' tr, ListTablesAll scriptTablesClient fuel
          (none, pages.map .ok ++ [.error e]) arn ns ""
        = some (.error (wrapError "ListTables" e), s', tr)) := by
  refine ⟨?_, ?_, ?_⟩
  · intro pages e fuel hf
    simpa [ListTableBucketsAll] using scriptBuckets_err pages e fuel none [] hf
  · intro arn pages e fuel hf
    simpa [ListNamespacesAll] using scriptNamespaces_err arn pages e fuel none [] hf
  · intro arn ns pages e fuel hf
    simpa [ListTablesAll] using scriptTables_err arn ns pages e fuel none [] hf

/-- C4 witness: a 2-page bucket listing (sizes 2 and 1) and 1-page
namespace/table listings aggregate to exactly the items in order. -/
theorem listAll_pagination_complete_witness :
    (∃ tr, ListTableBucketsAll scriptBucketsClient 3
        (none, [[(⟨some "b1", some "a1", none⟩ : TableBucketSummary),
                 ⟨some "b2", some "a2", none⟩],
                [⟨some "b3", some "a3", none⟩]].map .ok) ""
      = some (.ok [⟨"b1", "a1", 0⟩, ⟨"b2", "a2", 0⟩, ⟨"b3", "a3", 0⟩], (none, []), tr))
    ∧ (∃ tr, ListNamespacesAll scriptNamespacesClient 2
        (none, [[(⟨["n1"], none⟩ : NamespaceSummary)]].map .ok) "arn" ""
      = some (.ok [⟨"n1", 0⟩], (none, []), tr))
    ∧ (∃ tr, ListTablesAll scriptTablesClient 2
        (none, [[(⟨some "t1", some "ta1", ["n1"], none, "customer"⟩ : TableSummary)]].map .ok)
        "arn" "n1" ""
      = some (.ok [⟨"t1", "ta1", "n1", 0, "customer"⟩], (none, []), tr)) :=
  ⟨listAll_pagination_complete.1 _ 3 (by decide),
   listAll_pagination_complete.2.1 "arn" _ 2 (by decide),
   listAll_pagination_complete.2.2 "arn" "n1" _ 2 (by decide)⟩

/-- C5 witness: one successful page followed by a failing call yields the
wrapped error for each of the three aggregations. -/
theorem listAll_error_discards_pages_witness :
    (∃ s' tr, ListTableBucketsAll scriptBucketsClient 3
        (none, [[(⟨some "b1", some "a1", none⟩ : TableBucketSummary)]].map .ok
          ++ [.error .internalServerErrorException]) ""
      = some (.error (wrapError "ListTableBuckets" .internalServerErrorException), s', tr))
    ∧ (∃ s' tr, ListNamespacesAll scriptNamespacesClient 3
        (none, [[(⟨["n1"], none⟩ : NamespaceSummary)]].map .ok
          ++ [.error .forbiddenException]) "arn" ""
      = some (.error (wrapError "ListNamespaces" .forbiddenException), s', tr))
    ∧ (∃ s' tr, ListTablesAll scriptTablesClient 3
        (none, [[(⟨some "t1", some "ta1", ["n1"], none, "customer"⟩ : TableSummary)]].map .ok
          ++ [.error .badRequestException]) "arn" "n1" ""
      = some (.error (wrapError "ListTables" .badRequestException), s', tr)) :=
  ⟨listAll_error_discards_pages.1 _ .internalServerErrorException 3 (by decide),
   listAll_error_discards_pages.2.1 "arn" _ .forbiddenException 3 (by decide),
   listAll_error_discards_pages.2.2 "arn" "n1" _ .badRequestException 3 (by decide)⟩

/-- With the bucket cache populated, the bucket level issues no remote
call, leaves the remote state untouched, and any prompt it shows lists
exactly the cached names. -/
theorem navigateTableBuckets_cached {σ : Type} (cl : S3TablesAPI σ) (fuel : Nat)
    (sel : SelectorOracle) (st : NavigationState) (s : σ) (k : Nat)
    (l : List TableBucketInfo) (h : st.tableBuckets = some l) :
    ∃ a e st' pr, navigateTableBuckets cl fuel sel st s k = some ((a, e), st', s, [], pr)
      ∧ ∀ p ∈ pr, p.items = l.map (fun x => x.name) := by
  simp only [navigateTableBuckets, h]
  unfold navigateTableBucketsRest
  by_cases hl : l.isEmpty
  · exact ⟨.exit, none, st, [], by simp [h, hl], by simp⟩
  · rcases hsel : sel k with msg | result
    · exact ⟨.exit, some (.selector msg), st,
        [⟨"Select Table Bucket", l.map (fun x => x.name), false⟩],
        by simp [h, hl, hsel], by simp⟩
    · by_cases hact : result.action == .back || result.action == .exit
      · exact ⟨result.action, none, st,
          [⟨"Select Table Bucket", l.map (fun x => x.name), false⟩],
          by simp [h, hl, hsel, hact], by simp⟩
      · rcases hfind : l.find? (fun bucket => bucket.name == result.selected) with _ | bucket
        · exact ⟨.select, none,
            { st with
                tableBuckets := some l
                namespaces := none
                tables := none },
            [⟨"Select Table Bucket", l.map (fun x => x.name), false⟩],
            by simp [h, hl, hsel, hact, hfind], by simp⟩
        · exact ⟨.select, none,
            { st with
                tableBuckets := some l
                selectedBucket := bucket.name
                selectedBucketARN := bucket.arn
                namespaces := none
                tables := none },
            [⟨"Select Table Bucket", l.map (fun x => x.name), false⟩],
            by simp [h, hl, hsel, hact, hfind], by simp⟩

/-- Namespace-level analogue of `navigateTableBuckets_cached`. -/
theorem navigateNamespaces_cached {σ : Type} (cl : S3TablesAPI σ) (fuel : Nat)
    (sel : SelectorOracle) (st : NavigationState) (s : σ) (k : Nat)
    (l : List NamespaceInfo) (h : st.namespaces = some l) :
    ∃ a e st' pr, navigateNamespaces cl fuel sel st s k = some ((a, e), st', s, [], pr)
      ∧ ∀ p ∈ pr, p.items = l.map (fun x => x.name) := by
  simp only [navigateNamespaces, h]
  unfold navigateNamespacesRest
  by_cases hl : l.isEmpty
  · exact ⟨.back, none, st, [], by simp [h, hl], by simp⟩
  · rcases hsel : sel k with msg | result
    · exact ⟨.exit, some (.selector msg), st,
        [⟨"Select Namespace", l.map (fun x => x.name), true⟩],
        by simp [h, hl, hsel], by simp⟩
    · by_cases hback : result.action == .back
      · exact ⟨.back, none, st,
          [⟨"Select Namespace", l.map (fun x => x.name), true⟩],
          by simp [h, hl, hsel, hback], by simp⟩
      · by_cases hexit : result.action == .exit
        · exact ⟨.exit, none, st,
            [⟨"Select Namespace", l.map (fun x => x.name), true⟩],
            by simp [h, hl, hsel, hback, hexit], by simp⟩
        · exact ⟨.select, none,
            { st with
                namespaces := some l
                selectedNamespace := result.selected
                tables := none },
            [⟨"Select Namespace", l.map (fun x => x.name), true⟩],
            by simp [h, hl, hsel, hback, hexit], by simp⟩

/-- Table-level analogue of `navigateTableBuckets_cached`. -/
theorem navigateTables_cached {σ : Type} (cl : S3TablesAPI σ) (fuel : Nat)
    (sel : SelectorOracle) (st : NavigationState) (s : σ) (k : Nat)
    (l : List TableInfo) (h : st.tables = some l) :
    ∃ a e st' pr, navigateTables cl fuel sel st s k = some ((a, e), st', s, [], pr)
      ∧ ∀ p ∈ pr, p.items = l.map (fun x => x.name) := by
  simp only [navigateTables, h]
  unfold navigateTablesRest
  by_cases hl : l.isEmpty
  · exact ⟨.back, none, st, [], by simp [h, hl], by simp⟩
  · rcases hsel : sel k with msg | result
    · exact ⟨.exit, some (.selector msg), st,
        [⟨"Select Table", l.map (fun x => x.name), true⟩],
        by simp [h, hl, hsel], by simp⟩
    · by_cases hback : result.action == .back
      · exact ⟨.back, none, st,
          [⟨"Select Table", l.map (fun x => x.name), true⟩],
          by simp [h, hl, hsel, hback], by simp⟩
      · by_cases hexit : result.action == .exit
        · exact ⟨.exit, none, st,
            [⟨"Select Table", l.map (fun x => x.name), true⟩],
            by simp [h, hl, hsel, hback, hexit], by simp⟩
        · exact ⟨.select, none, st,
            [⟨"Select Table", l.map (fun x => x.name), true⟩],
            by simp [h, hl, hsel, hback, hexit], by simp⟩

/-- A full session Bucket→Namespace→Table then Back, Back, Exit against a
fixed remote: exactly three listing calls (one per level, on the first
visit), and the second visits to the Namespace and Bucket levels show the
very same items as the first visits. -/
theorem navigator_walk_three_calls (b0 : TableBucketSummary) (bs' : List TableBucketSummary)
    (n0 : NamespaceSummary) (ns' : List NamespaceSummary)
    (t0 : TableSummary) (ts' : List TableSummary) :
    Navigate (fixedClient (b0 :: bs') (n0 :: ns') (t0 :: ts')) 2 9
        (walkSel (tableBucketInfoOf b0).name (namespaceInfoOf n0).name)
        .tableBucket initNavState ()
      = some (none,
          ⟨.tableBucket, some ((b0 :: bs').map tableBucketInfoOf),
            some ((n0 :: ns').map namespaceInfoOf), some ((t0 :: ts').map tableInfoOf),
            (tableBucketInfoOf b0).name, (tableBucketInfoOf b0).arn,
            (namespaceInfoOf n0).name⟩, (),
          [RemoteCall.listTableBuckets none none,
           RemoteCall.listNamespaces (tableBucketInfoOf b0).arn none none,
           RemoteCall.listTables (tableBucketInfoOf b0).arn (namespaceInfoOf n0).name none none],
          [⟨"Select Table Bucket", ((b0 :: bs').map tableBucketInfoOf).map (fun x => x.name), false⟩,
           ⟨"Select Namespace", ((n0 :: ns').map namespaceInfoOf).map (fun x => x.name), true⟩,
           ⟨"Select Table", ((t0 :: ts').map tableInfoOf).map (fun x => x.name), true⟩,
           ⟨"Select Namespace", ((n0 :: ns').map namespaceInfoOf).map (fun x => x.name), true⟩,
           ⟨"Select Table Bucket", ((b0 :: bs').map tableBucketInfoOf).map (fun x => x.name), false⟩]) := by
  simp [Navigate, navigateLoop, navigateTableBuckets, navigateNamespaces, navigateTables,
    navigateTableBucketsRest, navigateNamespacesRest, navigateTablesRest,
    ListTableBucketsAll, ListTableBucketsAllGo, ListNamespacesAll, ListNamespacesAllGo,
    ListTablesAll, ListTablesAllGo, fixedClient, walkSel, initNavState]

/-- An empty (cached) bucket list makes the bucket level produce
`ActionExit` with nil error, no prompt and no remote call. -/
theorem navigateTableBuckets_empty_cached {σ : Type} (cl : S3TablesAPI σ) (fuel : Nat)
    (sel : SelectorOracle) (st : NavigationState) (s : σ) (k : Nat)
    (h : st.tableBuckets = some []) :
    navigateTableBuckets cl fuel sel st s k = some ((.exit, none), st, s, [], []) := by
  simp [navigateTableBuckets, h, navigateTableBucketsRest]

/-- An empty freshly fetched bucket list behaves the same after its single
listing call. -/
theorem navigateTableBuckets_empty_fetched {σ : Type} (cl : S3TablesAPI σ) (fuel : Nat)
    (sel : SelectorOracle) (st : NavigationState) (s s' : σ) (k : Nat)
    (h : st.tableBuckets = none)
    (hcl : cl.ListTableBuckets s ⟨none, none⟩ = (.ok ⟨[], none⟩, s')) :
    navigateTableBuckets cl (fuel + 1) sel st s k =
      some ((.exit, none), { st with tableBuckets := some [] }, s',
        [RemoteCall.listTableBuckets none none], []) := by
  simp [navigateTableBuckets, h, ListTableBucketsAll, ListTableBucketsAllGo, hcl,
    navigateTableBucketsRest]

/-- The session loop at the Bucket level with an empty list terminates
with nil error. -/
theorem navigateLoop_bucket_empty {σ : Type} (cl : S3TablesAPI σ) (fuel : Nat)
    (sel : SelectorOracle) (outer : Nat) (st : NavigationState) (s : σ) (k : Nat)
    (hlev : st.level = .tableBucket) (h : st.tableBuckets = some []) :
    navigateLoop cl fuel sel (outer + 1) st s k = some (none, st, s, [], []) := by
  simp [navigateLoop, hlev, navigateTableBuckets_empty_cached cl fuel sel st s k h]

/-- An empty namespace list produces `ActionBack` with nil error and no
prompt. -/
theorem navigateNamespaces_empty_cached {σ : Type} (cl : S3TablesAPI σ) (fuel : Nat)
    (sel : SelectorOracle) (st : NavigationState) (s : σ) (k : Nat)
    (h : st.namespaces = some []) :
    navigateNamespaces cl fuel sel st s k = some ((.back, none), st, s, [], []) := by
  simp [navigateNamespaces, h, navigateNamespacesRest]

/-- At the Namespace level an empty list does not terminate the session:
the loop continues exactly as if restarted at the Bucket level. -/
theorem navigateLoop_ns_empty {σ : Type} (cl : S3TablesAPI σ) (fuel : Nat)
    (sel : SelectorOracle) (outer : Nat) (st : NavigationState) (s : σ) (k : Nat)
    (hlev : st.level = .nsLevel) (h : st.namespaces = some []) :
    navigateLoop cl fuel sel (outer + 1) st s k
      = navigateLoop cl fuel sel outer { st with level := .tableBucket } s k := by
  have hstep := navigateNamespaces_empty_cached cl fuel sel st s k h
  cases hrec : navigateLoop cl fuel sel outer { st with level := .tableBucket } s k with
  | none => simp [navigateLoop, hlev, hstep, hrec]
  | some out =>
    rcases out with ⟨res, stF, sF, tr2, pr2⟩
    simp [navigateLoop, hlev, hstep, hrec]

/-- An empty table list produces `ActionBack` with nil error and no
prompt. -/
theorem navigateTables_empty_cached {σ : Type} (cl : S3TablesAPI σ) (fuel : Nat)
    (sel : SelectorOracle) (st : NavigationState) (s : σ) (k : Nat)
    (h : st.tables = some []) :
    navigateTables cl fuel sel st s k = some ((.back, none), st, s, [], []) := by
  simp [navigateTables, h, navigateTablesRest]

/-- At the Table level an empty list continues the session at the
Namespace level. -/
theorem navigateLoop_table_empty {σ : Type} (cl : S3TablesAPI σ) (fuel : Nat)
    (sel : SelectorOracle) (outer : Nat) (st : NavigationState) (s : σ) (k : Nat)
    (hlev : st.level = .table) (h : st.tables = some []) :
    navigateLoop cl fuel sel (outer + 1) st s k
      = navigateLoop cl fuel sel outer { st with level := .nsLevel } s k := by
  have hstep := navigateTables_empty_cached cl fuel sel st s k h
  cases hrec : navigateLoop cl fuel sel outer { st with level := .nsLevel } s k with
  | none => simp [navigateLoop, hlev, hstep, hrec]
  | some out =>
    rcases out with ⟨res, stF, sF, tr2, pr2⟩
    simp [navigateLoop, hlev, hstep, hrec]

/-- C8: a level whose cache is populated issues no RemotePort call and
shows exactly the cached items (so at most one listing call per distinct
parent context), and a forward walk Bucket→Namespace→Table followed by
Back, Back sees exactly 3 listing calls in the whole session, with the
second visits to the Namespace and Bucket levels showing items identical
to the first visits. -/
theorem navigator_cache_reuse :
    (∀ {σ : Type} (cl : S3TablesAPI σ) (fuel : Nat) (sel : SelectorOracle)
        (st : NavigationState) (s : σ) (k : Nat) (l : List TableBucketInfo),
      st.tableBuckets = some l →
      ∃ a e st' pr, navigateTableBuckets cl fuel sel st s k = some ((a, e), st', s, [], pr)
        ∧ ∀ p ∈ pr, p.items = l.map (fun x => x.name))
    ∧ (∀ {σ : Type} (cl : S3TablesAPI σ) (fuel : Nat) (sel : SelectorOracle)
        (st : NavigationState) (s : σ) (k : Nat) (l : List NamespaceInfo),
      st.namespaces = some l →
      ∃ a e st' pr, navigateNamespaces cl fuel sel st s k = some ((a, e), st', s, [], pr)
        ∧ ∀ p ∈ pr, p.items = l.map (fun x => x.name))
    ∧ (∀ {σ : Type} (cl : S3TablesAPI σ) (fuel : Nat) (sel : SelectorOracle)
        (st : NavigationState) (s : σ) (k : Nat) (l : List TableInfo),
      st.tables = some l →
      ∃ a e st' pr, navigateTables cl fuel sel st s k = some ((a, e), st', s, [], pr)
        ∧ ∀ p ∈ pr, p.items = l.map (fun x => x.name))
    ∧ (∀ (b0 : TableBucketSummary) (bs' : List TableBucketSummary)
        (n0 : NamespaceSummary) (ns' : List NamespaceSummary)
        (t0 : TableSummary) (ts' : List TableSummary),
      Navigate (fixedClient (b0 :: bs') (n0 :: ns') (t0 :: ts')) 2 9
          (walkSel (tableBucketInfoOf b0).name (namespaceInfoOf n0).name)
          .tableBucket initNavState ()
        = some (none,
            ⟨.tableBucket, some ((b0 :: bs').map tableBucketInfoOf),
              some ((n0 :: ns').map namespaceInfoOf), some ((t0 :: ts').map tableInfoOf),
              (tableBucketInfoOf b0).name, (tableBucketInfoOf b0).arn,
              (namespaceInfoOf n0).name⟩, (),
            [RemoteCall.listTableBuckets none none,
             RemoteCall.listNamespaces (tableBucketInfoOf b0).arn none none,
             RemoteCall.listTables (tableBucketInfoOf b0).arn (namespaceInfoOf n0).name
               none none],
            [⟨"Select Table Bucket",
               ((b0 :: bs').map tableBucketInfoOf).map (fun x => x.name), false⟩,
             ⟨"Select Namespace",
               ((n0 :: ns').map namespaceInfoOf).map (fun x => x.name), true⟩,
             ⟨"Select Table", ((t0 :: ts').map tableInfoOf).map (fun x => x.name), true⟩,
             ⟨"Select Namespace",
               ((n0 :: ns').map namespaceInfoOf).map (fun x => x.name), true⟩,
             ⟨"Select Table Bucket",
               ((b0 :: bs').map tableBucketInfoOf).map (fun x => x.name), false⟩])) := by
  refine ⟨?_, ?_, ?_, ?_⟩
  · intro σ cl fuel sel st s k l h
    exact navigateTableBuckets_cached cl fuel sel st s k l h
  · intro σ cl fuel sel st s k l h
    exact navigateNamespaces_cached cl fuel sel st s k l h
  · intro σ cl fuel sel st s k l h
    exact navigateTables_cached cl fuel sel st s k l h
  · intro b0 bs' n0 ns' t0 ts'
    exact navigator_walk_three_calls b0 bs' n0 ns' t0 ts'

/-- C8 witness: the three cached levels of a concrete state issue no
remote call and show the cached names. -/
theorem navigator_cache_reuse_witness :
    (∃ a e st' pr,
      navigateTableBuckets (fixedClient [] [] []) 2 (walkSel "x" "y")
          ⟨.tableBucket, some [⟨"bn", "ba", 0⟩], none, none, "", "", ""⟩ () 0
        = some ((a, e), st', (), [], pr)
      ∧ ∀ p ∈ pr, p.items = [(⟨"bn", "ba", 0⟩ : TableBucketInfo)].map (fun x => x.name))
    ∧ (∃ a e st' pr,
      navigateNamespaces (fixedClient [] [] []) 2 (walkSel "x" "y")
          ⟨.nsLevel, none, some [⟨"nn", 0⟩], none, "", "", ""⟩ () 0
        = some ((a, e), st', (), [], pr)
      ∧ ∀ p ∈ pr, p.items = [(⟨"nn", 0⟩ : NamespaceInfo)].map (fun x => x.name))
    ∧ (∃ a e st' pr,
      navigateTables (fixedClient [] [] []) 2 (walkSel "x" "y")
          ⟨.table, none, none, some [⟨"tn", "ta", "nn", 0, "customer"⟩], "", "", ""⟩ () 0
        = some ((a, e), st', (), [], pr)
      ∧ ∀ p ∈ pr, p.items =
          [(⟨"tn", "ta", "nn", 0, "customer"⟩ : TableInfo)].map (fun x => x.name)) :=
  ⟨navigator_cache_reuse.1 (fixedClient [] [] []) 2 (walkSel "x" "y") _ () 0 _ rfl,
   navigator_cache_reuse.2.1 (fixedClient [] [] []) 2 (walkSel "x" "y") _ () 0 _ rfl,
   navigator_cache_reuse.2.2.1 (fixedClient [] [] []) 2 (walkSel "x" "y") _ () 0 _ rfl⟩

/-- C9: an empty Bucket-level list terminates the session with nil error
and no prompt (implicit Exit); an empty Namespace-level list yields
`ActionBack` and the session continues at the Bucket level; an empty
Table-level list yields `ActionBack` and the session continues at the
Namespace level. -/
theorem navigator_empty_levels :
    (∀ {σ : Type} (cl : S3TablesAPI σ) (fuel : Nat) (sel : SelectorOracle)
        (st : NavigationState) (s : σ) (k : Nat), st.tableBuckets = some [] →
      navigateTableBuckets cl fuel sel st s k = some ((.exit, none), st, s, [], []))
    ∧ (∀ {σ : Type} (cl : S3TablesAPI σ) (fuel : Nat) (sel : SelectorOracle)
        (st : NavigationState) (s s' : σ) (k : Nat), st.tableBuckets = none →
      cl.ListTableBuckets s ⟨none, none⟩ = (.ok ⟨[], none⟩, s') →
      navigateTableBuckets cl (fuel + 1) sel st s k =
        some ((.exit, none), { st with tableBuckets := some [] }, s',
          [RemoteCall.listTableBuckets none none], []))
    ∧ (∀ {σ : Type} (cl : S3TablesAPI σ) (fuel : Nat) (sel : SelectorOracle)
        (outer : Nat) (st : NavigationState) (s : σ) (k : Nat),
      st.level = .tableBucket → st.tableBuckets = some [] →
      navigateLoop cl fuel sel (outer + 1) st s k = some (none, st, s, [], []))
    ∧ (∀ {σ : Type} (cl : S3TablesAPI σ) (fuel : Nat) (sel : SelectorOracle)
        (st : NavigationState) (s : σ) (k : Nat), st.namespaces = some [] →
      navigateNamespaces cl fuel sel st s k = some ((.back, none), st, s, [], []))
    ∧ (∀ {σ : Type} (cl : S3TablesAPI σ) (fuel : Nat) (sel : SelectorOracle)
        (outer : Nat) (st : NavigationState) (s : σ) (k : Nat),
      st.level = .nsLevel → st.namespaces = some [] →
      navigateLoop cl fuel sel (outer + 1) st s k
        = navigateLoop cl fuel sel outer { st with level := .tableBucket } s k)
    ∧ (∀ {σ : Type} (cl : S3TablesAPI σ) (fuel : Nat) (sel : SelectorOracle)
        (st : NavigationState) (s : σ) (k : Nat), st.tables = some [] →
      navigateTables cl fuel sel st s k = some ((.back, none), st, s, [], []))
    ∧ (∀ {σ : Type} (cl : S3TablesAPI σ) (fuel : Nat) (sel : SelectorOracle)
        (outer : Nat) (st : NavigationState) (s : σ) (k : Nat),
      st.level = .table → st.tables = some [] →
      navigateLoop cl fuel sel (outer + 1) st s k
        = navigateLoop cl fuel sel outer { st with level := .nsLevel } s k) := by
  refine ⟨?_, ?_, ?_, ?_, ?_, ?_, ?_⟩
  · intro σ cl fuel sel st s k h
    exact navigateTableBuckets_empty_cached cl fuel sel st s k h
  · intro σ cl fuel sel st s s' k h hcl
    exact navigateTableBuckets_empty_fetched cl fuel sel st s s' k h hcl
  · intro σ cl fuel sel outer st s k hlev h
    exact navigateLoop_bucket_empty cl fuel sel outer st s k hlev h
  · intro σ cl fuel sel st s k h
    exact navigateNamespaces_empty_cached cl fuel sel st s k h
  · intro σ cl fuel sel outer st s k hlev h
    exact navigateLoop_ns_empty cl fuel sel outer st s k hlev h
  · intro σ cl fuel sel st s k h
    exact navigateTables_empty_cached cl fuel sel st s k h
  · intro σ cl fuel sel outer st s k hlev h
    exact navigateLoop_table_empty cl fuel sel outer st s k hlev h

/-- C9 witness: concrete sessions exercising all three empty-level
behaviours. -/
theorem navigator_empty_levels_witness :
    navigateTableBuckets (fixedClient [] [] []) 2 (walkSel "x" "y")
        ⟨.tableBucket, some [], none, none, "", "", ""⟩ () 0
      = some ((.exit, none), ⟨.tableBucket, some [], none, none, "", "", ""⟩, (), [], [])
    ∧ navigateTableBuckets (fixedClient [] [] []) 2 (walkSel "x" "y")
        ⟨.tableBucket, none, none, none, "", "", ""⟩ () 0
      = some ((.exit, none), ⟨.tableBucket, some [], none, none, "", "", ""⟩, (),
          [RemoteCall.listTableBuckets none none], [])
    ∧ navigateLoop (fixedClient [] [] []) 2 (walkSel "x" "y") 5
        ⟨.tableBucket, some [], none, none, "", "", ""⟩ () 0
      = some (none, ⟨.tableBucket, some [], none, none, "", "", ""⟩, (), [], [])
    ∧ navigateNamespaces (fixedClient [] [] []) 2 (walkSel "x" "y")
        ⟨.nsLevel, some [⟨"bn", "ba", 0⟩], some [], none, "bn", "ba", ""⟩ () 0
      = some ((.back, none),
          ⟨.nsLevel, some [⟨"bn", "ba", 0⟩], some [], none, "bn", "ba", ""⟩, (), [], [])
    ∧ navigateLoop (fixedClient [] [] []) 2 (walkSel "x" "y") 5
        ⟨.nsLevel, some [⟨"bn", "ba", 0⟩], some [], none, "bn", "ba", ""⟩ () 0
      = navigateLoop (fixedClient [] [] []) 2 (walkSel "x" "y") 4
          ⟨.tableBucket, some [⟨"bn", "ba", 0⟩], some [], none, "bn", "ba", ""⟩ () 0
    ∧ navigateTables (fixedClient [] [] []) 2 (walkSel "x" "y")
        ⟨.table, none, none, some [], "bn", "ba", "nn"⟩ () 0
      = some ((.back, none), ⟨.table, none, none, some [], "bn", "ba", "nn"⟩, (), [], [])
    ∧ navigateLoop (fixedClient [] [] []) 2 (walkSel "x" "y") 5
        ⟨.table, none, none, some [], "bn", "ba", "nn"⟩ () 0
      = navigateLoop (fixedClient [] [] []) 2 (walkSel "x" "y") 4
          ⟨.nsLevel, none, none, some [], "bn", "ba", "nn"⟩ () 0 :=
  ⟨navigator_empty_levels.1 (fixedClient [] [] []) 2 (walkSel "x" "y") _ () 0 rfl,
   navigator_empty_levels.2.1 (fixedClient [] [] []) 1 (walkSel "x" "y") _ () () 0 rfl rfl,
   navigator_empty_levels.2.2.1 (fixedClient [] [] []) 2 (walkSel "x" "y") 4 _ () 0 rfl rfl,
   navigator_empty_levels.2.2.2.1 (fixedClient [] [] []) 2 (walkSel "x" "y") _ () 0 rfl,
   navigator_empty_levels.2.2.2.2.1 (fixedClient [] [] []) 2 (walkSel "x" "y") 4 _ () 0 rfl rfl,
   navigator_empty_levels.2.2.2.2.2.1 (fixedClient [] [] []) 2 (walkSel "x" "y") _ () 0 rfl,
   navigator_empty_levels.2.2.2.2.2.2 (fixedClient [] [] []) 2 (walkSel "x" "y") 4 _ () 0 rfl rfl⟩
